import Mathlib

/-!
Shallow embedding of the koorchik/telemetry-poc GPS-trajectory
reconstruction core (JavaScript) and proofs about it.

JavaScript numbers are modelled as real numbers; objects become
structures; fields that the code tests with `!== undefined` become
`Option` fields; `Math.random()` becomes an explicit stream of uniform
samples threaded through the computation.  Every definition is
translated from the repository source file named in its doc comment.
-/

namespace Telemetry

noncomputable section

/-! ## Configuration (src/config.js) -/

/-- Sampling-rate block of CONFIG (src/config.js).  The rates are the
integer constants 25 and 1 in the source. -/
structure SamplingConfig where
  imuHz : ℕ
  gpsHz : ℕ

/-- Noise-injection block of CONFIG (src/config.js). -/
structure NoiseConfig where
  enabled : Bool
  minMeters : ℝ
  maxMeters : ℝ

/-- EKF block of CONFIG (src/config.js). -/
structure EkfConfig where
  sigma_accel : ℝ
  sigma_gyro : ℝ
  sigma_bias : ℝ
  gps_pos_noise : ℝ
  min_speed_for_heading : ℝ

/-- Outlier-detection method selector (the strings 'simple' and
'physics' in src/config.js). -/
inductive OutlierMethod where
  | simple : OutlierMethod
  | physics : OutlierMethod
deriving DecidableEq

/-- Outlier-detection block of CONFIG (src/config.js). -/
structure OutlierConfig where
  enabled : Bool
  method : OutlierMethod
  maxSpeedKmh : ℝ
  maxJumpMeters : ℝ
  maxAccelG : ℝ
  maxYawRateDiff : ℝ
  maxSpeedDiff : ℝ
  maxLatAccDiff : ℝ
  anomalyThreshold : ℝ
  useTemporalCheck : Bool
  minPerpDistance : ℝ
  triangleRatio : ℝ

/-- The CONFIG object of src/config.js (the blocks used by the core;
the input-file block is I/O and omitted). -/
structure Config where
  sampling : SamplingConfig
  noise : NoiseConfig
  ekf : EkfConfig
  outlierDetection : OutlierConfig
  G : ℝ
  METERS_PER_DEG_LAT : ℝ

/-- The default CONFIG values of src/config.js. -/
def defaultConfig : Config where
  sampling := ⟨25, 1⟩
  noise := ⟨true, 1, 3⟩
  ekf := ⟨0.5, 0.02, 0.001, 5.0, 2.0⟩
  outlierDetection :=
    ⟨true, OutlierMethod.physics, 250, 50, 2.0, 45, 15, 0.8, 4.0, true, 15, 2.5⟩
  G := 9.81
  METERS_PER_DEG_LAT := 111320

/-! ## Data model -/

/-- A parsed telemetry sample (src/io/csv-parser.js typedef
TelemetryPoint) together with the enrichment fields added by
analysis/distance.js.  The parser defaults every numeric field, so all
fields are plain reals; the enrichment fields default to 0 and are
overwritten by the enrichment step before anything reads them. -/
structure TPoint where
  timestamp : ℝ
  lat : ℝ
  lon : ℝ
  speed : ℝ := 0
  bearing : ℝ := 0
  accuracy : ℝ := 5
  lap : ℤ := 0
  lateral_acc : ℝ := 0
  longitudinal_acc : ℝ := 0
  yaw_rate : ℝ := 0
  distance : ℝ := 0
  lapPosition : ℝ := 0
  lapTime : ℝ := 0

/-- Default telemetry sample, standing for the out-of-bounds array read
that never happens on the executed paths. -/
def dfltT : TPoint := { timestamp := 0, lat := 0, lon := 0 }

/-- A positional fix handed to the outlier rejector, the interpolators
and the EKF driver (a downsampled telemetry point in the pipeline).
Fields that the JavaScript tests with `!== undefined` are `Option`. -/
structure GPoint where
  timestamp : ℝ
  lat : ℝ
  lon : ℝ
  speed : Option ℝ := none
  bearing : Option ℝ := none
  yaw_rate : Option ℝ := none
  lateral_acc : Option ℝ := none
  accuracy : Option ℝ := none
  originalIndex : ℕ := 0

/-- Default fix, standing for the out-of-bounds array read that never
happens on the executed paths. -/
def dfltG : GPoint := { timestamp := 0, lat := 0, lon := 0 }

/-- A reconstructor output sample: an object {timestamp, lat, lon}. -/
structure Fix where
  timestamp : ℝ
  lat : ℝ
  lon : ℝ

/-- Default output sample for out-of-bounds reads. -/
def dfltF : Fix := ⟨0, 0, 0⟩

/-! ## Geodesy primitives (src/math/geometry.js) -/

/-- Embedding of JavaScript Math.atan2 on real arguments, by its
standard piecewise definition in terms of arctangent. -/
def atan2 (y x : ℝ) : ℝ :=
  if 0 < x then Real.arctan (y / x)
  else if x < 0 then
    (if 0 ≤ y then Real.arctan (y / x) + Real.pi
     else Real.arctan (y / x) - Real.pi)
  else
    (if 0 < y then Real.pi / 2
     else if y < 0 then -(Real.pi / 2)
     else 0)

/-- haversineDistance of src/math/geometry.js: great-circle distance in
metres between two lat/lon pairs, Earth radius 6371000 m.  Real.sqrt is
total (0 on negatives) where the JavaScript square root would give NaN;
no in-range input reaches that case. -/
def haversineDistance (lat1 lon1 lat2 lon2 : ℝ) : ℝ :=
  let R : ℝ := 6371000
  let dLat := (lat2 - lat1) * Real.pi / 180
  let dLon := (lon2 - lon1) * Real.pi / 180
  let a := Real.sin (dLat / 2) ^ 2 +
    Real.cos (lat1 * Real.pi / 180) * Real.cos (lat2 * Real.pi / 180) *
      Real.sin (dLon / 2) ^ 2
  R * 2 * atan2 (Real.sqrt a) (Real.sqrt (1 - a))

/-- gpsToLocal of src/math/geometry.js: flat tangent-plane conversion of
a lat/lon pair to local east/north metres. -/
def gpsToLocal (cfg : Config) (lat lon lat0 lon0 : ℝ) : ℝ × ℝ :=
  let cosLat0 := Real.cos (lat0 * Real.pi / 180)
  ((lon - lon0) * cfg.METERS_PER_DEG_LAT * cosLat0,
   (lat - lat0) * cfg.METERS_PER_DEG_LAT)

/-- localToGps of src/math/geometry.js: inverse tangent-plane conversion
of local east/north metres to a lat/lon pair. -/
def localToGps (cfg : Config) (px py lat0 lon0 : ℝ) : ℝ × ℝ :=
  let cosLat0 := Real.cos (lat0 * Real.pi / 180)
  (lat0 + py / cfg.METERS_PER_DEG_LAT,
   lon0 + px / (cfg.METERS_PER_DEG_LAT * cosLat0))

/-- First while loop of normalizeAngle (src/math/geometry.js line 57):
subtract 2π while the angle exceeds π. -/
def normDown (angle : ℝ) : ℝ :=
  if h : Real.pi < angle then normDown (angle - 2 * Real.pi) else angle
termination_by (⌈(angle - Real.pi) / (2 * Real.pi)⌉).toNat
decreasing_by
  have hpi : (0 : ℝ) < Real.pi := Real.pi_pos
  have h2pi : (0 : ℝ) < 2 * Real.pi := by linarith
  have hx : (0 : ℝ) < (angle - Real.pi) / (2 * Real.pi) :=
    div_pos (by linarith) h2pi
  have hceil : 0 < ⌈(angle - Real.pi) / (2 * Real.pi)⌉ := Int.ceil_pos.mpr hx
  have harg : (angle - 2 * Real.pi - Real.pi) / (2 * Real.pi)
      = (angle - Real.pi) / (2 * Real.pi) - 1 := by
    field_simp
    ring
  rw [harg]
  have : ⌈(angle - Real.pi) / (2 * Real.pi) - 1⌉
      = ⌈(angle - Real.pi) / (2 * Real.pi)⌉ - 1 := by
    have h1 := Int.ceil_sub_int ((angle - Real.pi) / (2 * Real.pi)) 1
    push_cast at h1
    exact h1
  rw [this]
  omega

/-- Second while loop of normalizeAngle (src/math/geometry.js line 58):
add 2π while the angle is below −π. -/
def normUp (angle : ℝ) : ℝ :=
  if h : angle < -Real.pi then normUp (angle + 2 * Real.pi) else angle
termination_by (⌈(-Real.pi - angle) / (2 * Real.pi)⌉).toNat
decreasing_by
  have hpi : (0 : ℝ) < Real.pi := Real.pi_pos
  have h2pi : (0 : ℝ) < 2 * Real.pi := by linarith
  have hx : (0 : ℝ) < (-Real.pi - angle) / (2 * Real.pi) :=
    div_pos (by linarith) h2pi
  have hceil : 0 < ⌈(-Real.pi - angle) / (2 * Real.pi)⌉ := Int.ceil_pos.mpr hx
  have harg : (-Real.pi - (angle + 2 * Real.pi)) / (2 * Real.pi)
      = (-Real.pi - angle) / (2 * Real.pi) - 1 := by
    field_simp
    ring
  rw [harg]
  have : ⌈(-Real.pi - angle) / (2 * Real.pi) - 1⌉
      = ⌈(-Real.pi - angle) / (2 * Real.pi)⌉ - 1 := by
    have h1 := Int.ceil_sub_int ((-Real.pi - angle) / (2 * Real.pi)) 1
    push_cast at h1
    exact h1
  rw [this]
  omega

/-- normalizeAngle of src/math/geometry.js: the two sequential while
loops bringing an angle into [−π, π]. -/
def normalizeAngle (angle : ℝ) : ℝ := normUp (normDown angle)

/-! ## Outlier detection (src/gps/outlier-detection.js) -/

/-- First while loop of angleDiff: subtract 360 while the difference
exceeds 180. -/
def angDown (d : ℝ) : ℝ :=
  if h : 180 < d then angDown (d - 360) else d
termination_by (⌈(d - 180) / 360⌉).toNat
decreasing_by
  have hx : (0 : ℝ) < (d - 180) / 360 := div_pos (by linarith) (by norm_num)
  have hceil : 0 < ⌈(d - 180) / 360⌉ := Int.ceil_pos.mpr hx
  have harg : (d - 360 - 180) / 360 = (d - 180) / 360 - 1 := by ring
  rw [harg]
  have hsub : ⌈(d - 180) / 360 - 1⌉ = ⌈(d - 180) / 360⌉ - 1 := by
    have h1 := Int.ceil_sub_int ((d - 180) / 360) 1
    push_cast at h1
    exact h1
  rw [hsub]
  omega

/-- Second while loop of angleDiff: add 360 while the difference is
below −180. -/
def angUp (d : ℝ) : ℝ :=
  if h : d < -180 then angUp (d + 360) else d
termination_by (⌈(-180 - d) / 360⌉).toNat
decreasing_by
  have hx : (0 : ℝ) < (-180 - d) / 360 := div_pos (by linarith) (by norm_num)
  have hceil : 0 < ⌈(-180 - d) / 360⌉ := Int.ceil_pos.mpr hx
  have harg : (-180 - (d + 360)) / 360 = (-180 - d) / 360 - 1 := by ring
  rw [harg]
  have hsub : ⌈(-180 - d) / 360 - 1⌉ = ⌈(-180 - d) / 360⌉ - 1 := by
    have h1 := Int.ceil_sub_int ((-180 - d) / 360) 1
    push_cast at h1
    exact h1
  rw [hsub]
  omega

/-- angleDiff of src/gps/outlier-detection.js: signed angle difference
normalised into [−180, 180] by two while loops. -/
def angleDiff (a b : ℝ) : ℝ := angUp (angDown (a - b))

/-- pointToLineDistance of src/gps/outlier-detection.js: perpendicular
distance in metres from a point to the segment p1–p2, in the local
tangent plane anchored at p1. -/
def pointToLineDistance (cfg : Config) (p1 p2 point : GPoint) : ℝ :=
  let cosLat := Real.cos (p1.lat * Real.pi / 180)
  let x2 := (p2.lon - p1.lon) * cfg.METERS_PER_DEG_LAT * cosLat
  let y2 := (p2.lat - p1.lat) * cfg.METERS_PER_DEG_LAT
  let px := (point.lon - p1.lon) * cfg.METERS_PER_DEG_LAT * cosLat
  let py := (point.lat - p1.lat) * cfg.METERS_PER_DEG_LAT
  let lineLenSq := x2 * x2 + y2 * y2
  if lineLenSq = 0 then Real.sqrt (px * px + py * py)
  else
    let t := max 0 (min 1 ((px * x2 + py * y2) / lineLenSq))
    let projX := t * x2
    let projY := t * y2
    Real.sqrt ((px - projX) ^ 2 + (py - projY) ^ 2)

/-- The four per-criterion anomaly scores of calculateAnomalyScore. -/
structure Scores where
  accel : ℝ
  yaw : ℝ
  speed : ℝ
  latAcc : ℝ

/-- All-zero scores, standing for the empty scores object the source
stores for the first fix and for non-positive time deltas. -/
def zeroScores : Scores := ⟨0, 0, 0, 0⟩

/-- The record calculateAnomalyScore returns. -/
structure ScoreRec where
  scores : Scores
  totalScore : ℝ
  impliedSpeed : ℝ

/-- Default score record for out-of-bounds reads. -/
def dfltRec : ScoreRec := ⟨zeroScores, 0, 0⟩

/-- calculateAnomalyScore of src/gps/outlier-detection.js: the four
physics checks and their weighted sum.  The prevImpliedSpeed fallback to
prev.speed mirrors the JavaScript null default; filterGPSOutliers always
passes a value.  A missing prev.speed in that unused fallback would be
NaN in JavaScript and is modelled as 0. -/
def calculateAnomalyScore (cfg : Config) (prev curr : GPoint) (dt : ℝ)
    (prevImpliedSpeed : Option ℝ) : ScoreRec :=
  let c := cfg.outlierDetection
  let dist := haversineDistance prev.lat prev.lon curr.lat curr.lon
  let gpsSpeed := dist / dt
  let prevSpeed := match prevImpliedSpeed with
    | some v => v
    | none => prev.speed.getD 0
  let impliedAccel := |gpsSpeed - prevSpeed| / dt
  let maxAccelMs2 := c.maxAccelG * cfg.G
  let sAccel := if maxAccelMs2 < impliedAccel then
      (impliedAccel - maxAccelMs2) / maxAccelMs2 else 0
  let sYaw := match prev.bearing, curr.bearing, prev.yaw_rate, curr.yaw_rate with
    | some pb, some cb, some pyr, some cyr =>
        let bearingChange := angleDiff cb pb
        let gpsYawRate := bearingChange / dt
        let imuYawRate := (pyr + cyr) / 2
        let yawRateDiff := |gpsYawRate - imuYawRate|
        if c.maxYawRateDiff < yawRateDiff then
          (yawRateDiff - c.maxYawRateDiff) / c.maxYawRateDiff else 0
    | _, _, _, _ => 0
  let sSpeed := match curr.speed with
    | some cs =>
        let speedDiff := |cs - gpsSpeed|
        if c.maxSpeedDiff < speedDiff then
          (speedDiff - c.maxSpeedDiff) / c.maxSpeedDiff else 0
    | none => 0
  let sLatAcc := match curr.yaw_rate, curr.lateral_acc, curr.speed with
    | some cyr, some cla, some cs =>
        if 2 < cs then
          let omega := |cyr| * Real.pi / 180
          let expectedLatAcc := cs * omega / cfg.G
          let measuredLatAcc := |cla|
          let latAccDiff := |expectedLatAcc - measuredLatAcc|
          if c.maxLatAccDiff < latAccDiff then
            (latAccDiff - c.maxLatAccDiff) / 1.0 else 0
        else 0
    | _, _, _ => 0
  let totalScore := sAccel * 2.0 + sYaw * 1.5 + sSpeed * 1.0 + sLatAcc * 1.0
  ⟨⟨sAccel, sYaw, sSpeed, sLatAcc⟩, totalScore, gpsSpeed⟩

/-- Triangle ratio of isTemporalOutlier: detour length through the
middle point over the direct distance (floored at 0.1 m). -/
def triangleRatioAt (pts : List GPoint) (i : ℕ) : ℝ :=
  let prev := pts.getD (i - 1) dfltG
  let curr := pts.getD i dfltG
  let next := pts.getD (i + 1) dfltG
  let distPrevCurr := haversineDistance prev.lat prev.lon curr.lat curr.lon
  let distCurrNext := haversineDistance curr.lat curr.lon next.lat next.lon
  let distPrevNext := haversineDistance prev.lat prev.lon next.lat next.lon
  (distPrevCurr + distCurrNext) / max distPrevNext 0.1

/-- isTemporalOutlier of src/gps/outlier-detection.js: the 3-point
triangle-window test, false when disabled or at the sequence ends. -/
def isTemporalOutlier (cfg : Config) (pts : List GPoint) (i : ℕ) : Prop :=
  cfg.outlierDetection.useTemporalCheck = true ∧ 1 ≤ i ∧ i < pts.length - 1 ∧
    cfg.outlierDetection.triangleRatio < triangleRatioAt pts i ∧
    cfg.outlierDetection.minPerpDistance <
      pointToLineDistance cfg (pts.getD (i - 1) dfltG) (pts.getD (i + 1) dfltG)
        (pts.getD i dfltG)

instance (cfg : Config) (pts : List GPoint) (i : ℕ) :
    Decidable (isTemporalOutlier cfg pts i) := by
  unfold isTemporalOutlier
  infer_instance

/-- The rejection decision of the physics filter: a high total score, or
a triangle-test hit together with a moderate total score. -/
def isOutlierAt (cfg : Config) (pts : List GPoint) (i : ℕ) (total : ℝ) : Prop :=
  cfg.outlierDetection.anomalyThreshold < total ∨
    (isTemporalOutlier cfg pts i ∧ cfg.outlierDetection.anomalyThreshold / 2 < total)

instance (cfg : Config) (pts : List GPoint) (i : ℕ) (total : ℝ) :
    Decidable (isOutlierAt cfg pts i total) := by
  unfold isOutlierAt
  infer_instance

/-- A rejected fix as pushed by the source: the point together with the
annotation fields.  Physics rejections carry reason/scores/totalScore;
the simple method carries reason/value (the unused fields default). -/
structure RejectedPoint where
  point : GPoint
  reason : String
  scores : Scores := zeroScores
  totalScore : ℝ := 0
  value : ℝ := 0

/-- The pair of lists filterGPSOutliers returns. -/
structure FilterResult where
  filtered : List GPoint
  outliers : List RejectedPoint

/-- First pass of the physics filter (src/gps/outlier-detection.js lines
176-189), from index i onward: anomaly score records with the implied
speed threaded through every fix, accepted or not. -/
def anomalyScoresGo (cfg : Config) (pts : List GPoint) (prevImplied : ℝ)
    (i : ℕ) : List ScoreRec :=
  if h : i < pts.length then
    let prev := pts.getD (i - 1) dfltG
    let curr := pts.getD i dfltG
    let dt := curr.timestamp - prev.timestamp
    if dt ≤ 0 then
      ⟨zeroScores, 0, prevImplied⟩ :: anomalyScoresGo cfg pts prevImplied (i + 1)
    else
      let r := calculateAnomalyScore cfg prev curr dt (some prevImplied)
      r :: anomalyScoresGo cfg pts r.impliedSpeed (i + 1)
  else []
termination_by pts.length - i

/-- The full anomaly-score array of the physics filter: the seed record
for index 0 (implied speed = reported speed or 0), then the loop from
index 1. -/
def anomalyScores (cfg : Config) (pts : List GPoint) : List ScoreRec :=
  let seed := (pts.headD dfltG).speed.getD 0
  ⟨zeroScores, 0, seed⟩ :: anomalyScoresGo cfg pts seed 1

/-- Second pass of the physics filter (src/gps/outlier-detection.js
lines 192-212), from index i onward: keep or reject each fix from its
score and the triangle test. -/
def physicsPassGo (cfg : Config) (pts : List GPoint) (scores : List ScoreRec)
    (i : ℕ) : FilterResult :=
  if h : i < pts.length then
    let score := scores.getD i dfltRec
    let rest := physicsPassGo cfg pts scores (i + 1)
    if isOutlierAt cfg pts i score.totalScore then
      ⟨rest.filtered,
       ⟨pts.getD i dfltG,
        (if isTemporalOutlier cfg pts i then "temporal+physics" else "physics"),
        score.scores, score.totalScore, 0⟩ :: rest.outliers⟩
    else ⟨pts.getD i dfltG :: rest.filtered, rest.outliers⟩
  else ⟨[], []⟩
termination_by pts.length - i

/-- Inner loop of filterGPSOutliersSimple, carrying the last kept fix as
the reference point. -/
def simpleGo (cfg : Config) (prev : GPoint) : List GPoint → FilterResult
  | [] => ⟨[], []⟩
  | curr :: rest =>
    let dt := curr.timestamp - prev.timestamp
    if dt ≤ 0 then
      let r := simpleGo cfg curr rest
      ⟨curr :: r.filtered, r.outliers⟩
    else
      let dist := haversineDistance prev.lat prev.lon curr.lat curr.lon
      let speed := dist / dt
      if cfg.outlierDetection.maxSpeedKmh / 3.6 < speed then
        let r := simpleGo cfg prev rest
        ⟨r.filtered, ⟨curr, "speed", zeroScores, 0, speed * 3.6⟩ :: r.outliers⟩
      else if cfg.outlierDetection.maxJumpMeters < dist then
        let r := simpleGo cfg prev rest
        ⟨r.filtered, ⟨curr, "jump", zeroScores, 0, dist⟩ :: r.outliers⟩
      else
        let r := simpleGo cfg curr rest
        ⟨curr :: r.filtered, r.outliers⟩

/-- filterGPSOutliersSimple of src/gps/outlier-detection.js: threshold
on implied speed and jump distance against the last kept fix.  Always
called with at least one point. -/
def filterGPSOutliersSimple (cfg : Config) (gpsPoints : List GPoint) :
    FilterResult :=
  match gpsPoints with
  | [] => ⟨[], []⟩
  | p :: rest =>
    let r := simpleGo cfg p rest
    ⟨p :: r.filtered, r.outliers⟩

/-- filterGPSOutliers of src/gps/outlier-detection.js: the physics-based
two-pass outlier rejector, with the enabled/short-input passthroughs and
the simple-method dispatch. -/
def filterGPSOutliers (cfg : Config) (gpsPoints : List GPoint) : FilterResult :=
  if cfg.outlierDetection.enabled = false then ⟨gpsPoints, []⟩
  else if gpsPoints.length < 2 then ⟨gpsPoints, []⟩
  else if cfg.outlierDetection.method = OutlierMethod.simple then
    filterGPSOutliersSimple cfg gpsPoints
  else
    let scores := anomalyScores cfg gpsPoints
    let rest := physicsPassGo cfg gpsPoints scores 1
    ⟨gpsPoints.headD dfltG :: rest.filtered, rest.outliers⟩

/-! ## Dense linear algebra (src/math/matrix.js) -/

/-- Row-major real matrix of a fixed shape. -/
abbrev Mat (m n : ℕ) := Fin m → Fin n → ℝ

/-- createMatrix of src/math/matrix.js: constant-filled matrix. -/
def createMatrix (m n : ℕ) (fill : ℝ) : Mat m n := fun _ _ => fill

/-- eye of src/math/matrix.js: identity matrix of size n. -/
def eye (n : ℕ) : Mat n n := fun i j => if i = j then 1 else 0

/-- transpose of src/math/matrix.js. -/
def transpose {m n : ℕ} (A : Mat m n) : Mat n m := fun i j => A j i

/-- matmul of src/math/matrix.js: matrix product. -/
def matmul {m n p : ℕ} (A : Mat m n) (B : Mat n p) : Mat m p :=
  fun i j => ∑ k, A i k * B k j

/-- matadd of src/math/matrix.js: element-wise sum. -/
def matadd {m n : ℕ} (A B : Mat m n) : Mat m n := fun i j => A i j + B i j

/-- matsub of src/math/matrix.js: element-wise difference. -/
def matsub {m n : ℕ} (A B : Mat m n) : Mat m n := fun i j => A i j - B i j

/-- matvec of src/math/matrix.js: matrix–vector product. -/
def matvec {m n : ℕ} (M : Mat m n) (v : Fin n → ℝ) : Fin m → ℝ :=
  fun i => ∑ j, M i j * v j

/-- Pivot search of inverse (src/math/matrix.js lines 208-211): the row
index at or below i whose column-i entry has the largest magnitude,
scanning k = i+1 .. n−1 and replacing on strict increase. -/
def pivotRow {n : ℕ} (A : Mat n n) (i : Fin n) : Fin n :=
  ((List.finRange n).filter (fun k => i < k)).foldl
    (fun maxRow k => if |A maxRow i| < |A k i| then k else maxRow) i

/-- Row swap used by the Gauss–Jordan elimination. -/
def swapRows {n : ℕ} (A : Mat n n) (i j : Fin n) : Mat n n := fun r c =>
  if r = i then A j c else if r = j then A i c else A r c

/-- One column step of the Gauss–Jordan elimination of inverse
(src/math/matrix.js lines 206-237): pivot, swap, bail out on a
near-singular pivot, normalise the pivot row, eliminate the column. -/
def gjStep {n : ℕ} (AI : Mat n n × Mat n n) (i : Fin n) :
    Option (Mat n n × Mat n n) :=
  let maxRow := pivotRow AI.1 i
  let A := swapRows AI.1 i maxRow
  let I := swapRows AI.2 i maxRow
  let pivot := A i i
  if |pivot| < 1e-12 then none
  else
    let A1 : Mat n n := fun r c => if r = i then A r c / pivot else A r c
    let I1 : Mat n n := fun r c => if r = i then I r c / pivot else I r c
    let A2 : Mat n n := fun k c =>
      if k = i then A1 k c else A1 k c - A1 k i * A1 i c
    let I2 : Mat n n := fun k c =>
      if k = i then I1 k c else I1 k c - A1 k i * I1 i c
    some (A2, I2)

/-- inverse of src/math/matrix.js: Gauss–Jordan elimination with partial
pivoting; returns the identity when a pivot magnitude falls below
1e-12 (the soft-failure contract of the source). -/
def inverse {n : ℕ} (M : Mat n n) : Mat n n :=
  match (List.finRange n).foldlM gjStep (M, eye n) with
  | none => eye n
  | some AI => AI.2

/-! ## Seven-state EKF (src/filters/ekf-ins-gps.js) -/

/-- The destructured EKF state vector [px, py, vx, vy, psi, b_ax, b_ay]
of src/filters/ekf-ins-gps.js. -/
structure X7 where
  px : ℝ
  py : ℝ
  vx : ℝ
  vy : ℝ
  psi : ℝ
  b_ax : ℝ
  b_ay : ℝ

/-- The INSGPSFusion instance state: state vector, covariance, reference
point and the initialized flag.  The JavaScript nulls before
initialization are modelled as zeros guarded by the flag. -/
structure EkfState where
  x : X7
  P : Mat 7 7
  lat0 : ℝ
  lon0 : ℝ
  initialized : Bool

/-- The freshly constructed INSGPSFusion instance. -/
def ekfNew : EkfState :=
  ⟨⟨0, 0, 0, 0, 0, 0, 0⟩, fun _ _ => 0, 0, 0, false⟩

/-- INSGPSFusion.initialize: reference point from the fix, heading from
its bearing, velocity from its speed along that heading, fixed diagonal
initial covariance.  The bearing and speed fields are present on every
fix the pipeline passes in; a missing one would poison the JavaScript
state with NaN and is modelled as 0. -/
def initFromGps (gpsPoint : GPoint) : EkfState :=
  let psi0 := gpsPoint.bearing.getD 0 * Real.pi / 180
  let speed := gpsPoint.speed.getD 0
  let vx0 := speed * Real.sin psi0
  let vy0 := speed * Real.cos psi0
  { x := ⟨0, 0, vx0, vy0, psi0, 0, 0⟩
    P := ![![10, 0, 0, 0, 0, 0, 0],
           ![0, 10, 0, 0, 0, 0, 0],
           ![0, 0, 1, 0, 0, 0, 0],
           ![0, 0, 0, 1, 0, 0, 0],
           ![0, 0, 0, 0, 0.1, 0, 0],
           ![0, 0, 0, 0, 0, 0.1, 0],
           ![0, 0, 0, 0, 0, 0, 0.1]]
    lat0 := gpsPoint.lat
    lon0 := gpsPoint.lon
    initialized := true }

/-- INSGPSFusion.predict: IMU preprocessing with the RaceChrono sign
flips, body-to-world rotation, constant-acceleration state integration,
heading re-normalisation, and covariance propagation P ← F·P·Fᵀ + Q. -/
def predict (cfg : Config) (st : EkfState) (imu : TPoint) (dt : ℝ) : EkfState :=
  if st.initialized = false then st
  else
    let a_lateral := -imu.lateral_acc * cfg.G - st.x.b_ax
    let a_longitudinal := imu.longitudinal_acc * cfg.G - st.x.b_ay
    let omega_z := -imu.yaw_rate * Real.pi / 180
    let cos_psi := Real.cos st.x.psi
    let sin_psi := Real.sin st.x.psi
    let ax_world := a_lateral * cos_psi + a_longitudinal * sin_psi
    let ay_world := -a_lateral * sin_psi + a_longitudinal * cos_psi
    let px_new := st.x.px + st.x.vx * dt + 0.5 * ax_world * dt * dt
    let py_new := st.x.py + st.x.vy * dt + 0.5 * ay_world * dt * dt
    let vx_new := st.x.vx + ax_world * dt
    let vy_new := st.x.vy + ay_world * dt
    let psi_new := normalizeAngle (st.x.psi + omega_z * dt)
    let dt2 := dt * dt
    let dax_dpsi := -a_lateral * sin_psi + a_longitudinal * cos_psi
    let day_dpsi := -a_lateral * cos_psi - a_longitudinal * sin_psi
    let F : Mat 7 7 :=
      ![![1, 0, dt, 0, dax_dpsi * dt2 * 0.5, -cos_psi * dt2 * 0.5, -sin_psi * dt2 * 0.5],
        ![0, 1, 0, dt, day_dpsi * dt2 * 0.5, sin_psi * dt2 * 0.5, -cos_psi * dt2 * 0.5],
        ![0, 0, 1, 0, dax_dpsi * dt, -cos_psi * dt, -sin_psi * dt],
        ![0, 0, 0, 1, day_dpsi * dt, sin_psi * dt, -cos_psi * dt],
        ![0, 0, 0, 0, 1, 0, 0],
        ![0, 0, 0, 0, 0, 1, 0],
        ![0, 0, 0, 0, 0, 0, 1]]
    let sa := cfg.ekf.sigma_accel
    let sg := cfg.ekf.sigma_gyro
    let sb := cfg.ekf.sigma_bias
    let q_pos := sa * sa * dt2 * dt2 / 4
    let q_vel := sa * sa * dt2
    let q_psi := sg * sg * dt2
    let q_bias := sb * sb * dt
    let Q : Mat 7 7 :=
      ![![q_pos, 0, 0, 0, 0, 0, 0],
        ![0, q_pos, 0, 0, 0, 0, 0],
        ![0, 0, q_vel, 0, 0, 0, 0],
        ![0, 0, 0, q_vel, 0, 0, 0],
        ![0, 0, 0, 0, q_psi, 0, 0],
        ![0, 0, 0, 0, 0, q_bias, 0],
        ![0, 0, 0, 0, 0, 0, q_bias]]
    { st with
      P := matadd (matmul F (matmul st.P (transpose F))) Q
      x := ⟨px_new, py_new, vx_new, vy_new, psi_new, st.x.b_ax, st.x.b_ay⟩ }

/-- INSGPSFusion.update: position measurement in local metres, standard
Kalman update with measurement noise from the fix accuracy (JavaScript
`accuracy || gps_pos_noise`, so a missing or zero accuracy falls back to
the configured default), heading re-normalised afterwards. -/
def update (cfg : Config) (st : EkfState) (gpsPoint : GPoint) : EkfState :=
  if st.initialized = false then st
  else
    let z := gpsToLocal cfg gpsPoint.lat gpsPoint.lon st.lat0 st.lon0
    let H : Mat 2 7 := ![![1, 0, 0, 0, 0, 0, 0], ![0, 1, 0, 0, 0, 0, 0]]
    let r := match gpsPoint.accuracy with
      | none => cfg.ekf.gps_pos_noise
      | some a => if a = 0 then cfg.ekf.gps_pos_noise else a
    let R : Mat 2 2 := ![![r * r, 0], ![0, r * r]]
    let y : Fin 2 → ℝ := ![z.1 - st.x.px, z.2 - st.x.py]
    let S := matadd (matmul H (matmul st.P (transpose H))) R
    let K := matmul (matmul st.P (transpose H)) (inverse S)
    let Ky := matvec K y
    let IKH := matsub (eye 7) (matmul K H)
    { st with
      x := ⟨st.x.px + Ky 0, st.x.py + Ky 1, st.x.vx + Ky 2, st.x.vy + Ky 3,
            normalizeAngle (st.x.psi + Ky 4), st.x.b_ax + Ky 5, st.x.b_ay + Ky 6⟩
      P := matmul IKH st.P }

/-- INSGPSFusion.getPosition: the current position back in lat/lon, or
null before initialization. -/
def getPosition (cfg : Config) (st : EkfState) : Option (ℝ × ℝ) :=
  if st.initialized = false then none
  else some (localToGps cfg st.x.px st.x.py st.lat0 st.lon0)

/-- INSGPSFusion.getSpeed: current speed magnitude, 0 before
initialization. -/
def getSpeed (st : EkfState) : ℝ :=
  if st.initialized = false then 0
  else Real.sqrt (st.x.vx * st.x.vx + st.x.vy * st.x.vy)

/-- Fix-due test of the runSensorFusion main loop: the JavaScript
`imu.timestamp >= nextGpsTime` with Infinity modelled as none. -/
def dueAt (nextGpsTime : Option ℝ) (t : ℝ) : Prop :=
  match nextGpsTime with
  | some tg => tg ≤ t
  | none => False

instance (nextGpsTime : Option ℝ) (t : ℝ) : Decidable (dueAt nextGpsTime t) :=
  match nextGpsTime with
  | some tg => (inferInstance : Decidable (tg ≤ t))
  | none => isFalse (fun h => h)

/-- The speed test of the runSensorFusion initialization scan: a missing
speed field compares as false in JavaScript. -/
def optSpeedGt (s : Option ℝ) (thr : ℝ) : Prop :=
  match s with
  | some v => thr < v
  | none => False

instance (s : Option ℝ) (thr : ℝ) : Decidable (optSpeedGt s thr) :=
  match s with
  | some v => (inferInstance : Decidable (thr < v))
  | none => isFalse (fun h => h)

/-- Initialization-point scan of runSensorFusion (lines 222-228): index
of the first fix whose speed exceeds min_speed_for_heading, or 0 when
none does. -/
def findInitIdx (cfg : Config) (gps : List GPoint) : ℕ :=
  (gps.findIdx? (fun p =>
    decide (optSpeedGt p.speed cfg.ekf.min_speed_for_heading))).getD 0

/-- Main loop of runSensorFusion (lines 239-262): at each IMU sample
predict with the fixed dt = 1/imuHz, consume the next fix when its
timestamp has been reached, and emit the current position.  nextGpsTime
none stands for the JavaScript Infinity sentinel. -/
def ekfLoop (cfg : Config) (full : List TPoint) (gps : List GPoint)
    (i : ℕ) (gpsIdx : ℕ) (nextGpsTime : Option ℝ) (st : EkfState) : List Fix :=
  if h : i < full.length then
    let imu := full.getD i dfltT
    let dt := 1 / (cfg.sampling.imuHz : ℝ)
    let st1 := predict cfg st imu dt
    let step :=
      if dueAt nextGpsTime imu.timestamp ∧ gpsIdx + 1 < gps.length then
        (update cfg st1 (gps.getD (gpsIdx + 1) dfltG), gpsIdx + 1,
         (gps.get? (gpsIdx + 2)).map GPoint.timestamp)
      else (st1, gpsIdx, nextGpsTime)
    let rest := ekfLoop cfg full gps (i + 1) step.2.1 step.2.2 step.1
    match getPosition cfg step.1 with
    | some pos => ⟨imu.timestamp, pos.1, pos.2⟩ :: rest
    | none => rest
  else []
termination_by full.length - i

/-- runSensorFusion of src/filters/ekf-ins-gps.js: initialise from the
scan result (falling back to the first fix) and run the main loop from
that fix's original sample index.  The JavaScript throws on an empty fix
array (it reads gps[0] unconditionally); no caller reaches that case and
it is modelled as the empty trajectory. -/
def runSensorFusion (cfg : Config) (full : List TPoint) (gps : List GPoint) :
    List Fix :=
  match gps with
  | [] => []
  | _ :: _ =>
    let initIdx := findInitIdx cfg gps
    let g0 := gps.getD initIdx dfltG
    let st := initFromGps g0
    let nextGpsTime := (gps.get? (initIdx + 1)).map GPoint.timestamp
    let startIdx := g0.originalIndex
    ekfLoop cfg full gps startIdx initIdx nextGpsTime st

/-! ## Interpolation (src/interpolation/spline.js, linear.js) -/

/-- catmullRom of src/interpolation/spline.js: the cubic basis
evaluation on one scalar channel. -/
def catmullRom (p0 p1 p2 p3 t : ℝ) : ℝ :=
  let t2 := t * t
  let t3 := t2 * t
  0.5 * ((2 * p1) + (-p0 + p2) * t +
    (2 * p0 - 5 * p1 + 4 * p2 - p3) * t2 +
    (-p0 + 3 * p1 - 3 * p2 + p3) * t3)

/-- Segment-search while loop shared by both interpolators and the
spline smoother: advance while the next timestamp is at most t. -/
def findSegIdx (ts : List ℝ) (t : ℝ) (idx : ℕ) : ℕ :=
  if h : idx < ts.length - 1 ∧ ts.getD (idx + 1) 0 ≤ t then
    findSegIdx ts t (idx + 1)
  else idx
termination_by ts.length - idx
decreasing_by omega

/-- Body of the applySplineInterpolation loop for one output timestamp:
segment search, end-of-data passthrough, clamped four-point window and
Catmull-Rom evaluation at the segment parameter u. -/
def splineEvalAt (gps : List GPoint) (t : ℝ) : Fix :=
  let gpsIdx := findSegIdx (gps.map GPoint.timestamp) t 0
  if gps.length - 1 ≤ gpsIdx then
    ⟨t, (gps.getD (gps.length - 1) dfltG).lat, (gps.getD (gps.length - 1) dfltG).lon⟩
  else
    let i0 := gpsIdx - 1
    let i1 := gpsIdx
    let i2 := min (gps.length - 1) (gpsIdx + 1)
    let i3 := min (gps.length - 1) (gpsIdx + 2)
    let t0 := (gps.getD i1 dfltG).timestamp
    let t1 := (gps.getD i2 dfltG).timestamp
    let u := (t - t0) / (t1 - t0)
    ⟨t,
     catmullRom (gps.getD i0 dfltG).lat (gps.getD i1 dfltG).lat
       (gps.getD i2 dfltG).lat (gps.getD i3 dfltG).lat u,
     catmullRom (gps.getD i0 dfltG).lon (gps.getD i1 dfltG).lon
       (gps.getD i2 dfltG).lon (gps.getD i3 dfltG).lon u⟩

/-- applySplineInterpolation of src/interpolation/spline.js: evaluate
the spline at every full-data timestamp from the first fix's original
sample index on.  On fewer than two fixes the JavaScript returns the
input array itself; its elements are read as {timestamp, lat, lon}. -/
def applySplineInterpolation (full : List TPoint) (gps : List GPoint) :
    List Fix :=
  if gps.length < 2 then gps.map (fun g => ⟨g.timestamp, g.lat, g.lon⟩)
  else
    let startIdx := (gps.headD dfltG).originalIndex
    (List.range' startIdx (full.length - startIdx)).map
      (fun i => splineEvalAt gps (full.getD i dfltT).timestamp)

/-- Body of the applyLinearInterpolation loop for one output timestamp. -/
def linearEvalAt (gps : List GPoint) (t : ℝ) : Fix :=
  let gpsIdx := findSegIdx (gps.map GPoint.timestamp) t 0
  if gps.length - 1 ≤ gpsIdx then
    ⟨t, (gps.getD (gps.length - 1) dfltG).lat, (gps.getD (gps.length - 1) dfltG).lon⟩
  else
    let p1 := gps.getD gpsIdx dfltG
    let p2 := gps.getD (gpsIdx + 1) dfltG
    let u := (t - p1.timestamp) / (p2.timestamp - p1.timestamp)
    ⟨t, p1.lat + u * (p2.lat - p1.lat), p1.lon + u * (p2.lon - p1.lon)⟩

/-- applyLinearInterpolation of src/interpolation/linear.js. -/
def applyLinearInterpolation (full : List TPoint) (gps : List GPoint) :
    List Fix :=
  if gps.length < 2 then gps.map (fun g => ⟨g.timestamp, g.lat, g.lon⟩)
  else
    let startIdx := (gps.headD dfltG).originalIndex
    (List.range' startIdx (full.length - startIdx)).map
      (fun i => linearEvalAt gps (full.getD i dfltT).timestamp)

/-- Control-point index walk of smoothTrajectoryWithSpline: indices
0, r, 2r, … below len.  The JavaScript loop diverges for a
non-positive step; every call site passes the positive imuHz. -/
def stepIndices (len ratio i : ℕ) : List ℕ :=
  if h : i < len ∧ 0 < ratio then i :: stepIndices len ratio (i + ratio) else []
termination_by len - i
decreasing_by omega

/-- Body of the smoothTrajectoryWithSpline loop for one trajectory
point; unlike splineEvalAt the parameter u is guarded to 0 on a
degenerate segment. -/
def smoothEvalAt (cps : List Fix) (point : Fix) : Fix :=
  let t := point.timestamp
  let idx := findSegIdx (cps.map Fix.timestamp) t 0
  if cps.length - 1 ≤ idx then point
  else
    let i0 := idx - 1
    let i2 := min (cps.length - 1) (idx + 1)
    let i3 := min (cps.length - 1) (idx + 2)
    let t0 := (cps.getD idx dfltF).timestamp
    let t1 := (cps.getD i2 dfltF).timestamp
    let u := if t0 < t1 then (t - t0) / (t1 - t0) else 0
    ⟨t,
     catmullRom (cps.getD i0 dfltF).lat (cps.getD idx dfltF).lat
       (cps.getD i2 dfltF).lat (cps.getD i3 dfltF).lat u,
     catmullRom (cps.getD i0 dfltF).lon (cps.getD idx dfltF).lon
       (cps.getD i2 dfltF).lon (cps.getD i3 dfltF).lon u⟩

/-- smoothTrajectoryWithSpline of src/interpolation/spline.js:
downsample the trajectory to control points (appending the last point
when the stride missed it — the JavaScript reference-inequality test is
an index test here), then re-evaluate every trajectory timestamp. -/
def smoothTrajectoryWithSpline (trajectory : List Fix)
    (downsampleRatio : ℕ) : List Fix :=
  if trajectory.length < downsampleRatio * 2 then trajectory
  else
    let cpIdx := stepIndices trajectory.length downsampleRatio 0
    let cpIdx2 := if cpIdx.getLastD 0 ≠ trajectory.length - 1 then
        cpIdx ++ [trajectory.length - 1] else cpIdx
    let controlPoints := cpIdx2.map (fun i => trajectory.getD i dfltF)
    if controlPoints.length < 4 then trajectory
    else trajectory.map (smoothEvalAt controlPoints)

/-! ## Accuracy metrics (analysis/metrics.js) -/

/-- Three-decimal timestamp key of calculateAccuracyMetrics: the
JavaScript toFixed(3) string key, as the integer of thousandths. -/
def round3 (t : ℝ) : ℤ := round (1000 * t)

/-- Map lookup of calculateAccuracyMetrics: the Map built by insertion
keeps the last point inserted under each key. -/
def estLookup (estimated : List Fix) (key : ℤ) : Option Fix :=
  estimated.reverse.find? (fun p => decide (round3 p.timestamp = key))

/-- The AccuracyMetrics record of analysis/metrics.js.  The JavaScript
Infinity results for an empty match set are the EReal top element. -/
structure AccuracyMetrics where
  mse : EReal
  rmse : EReal
  mae : EReal
  maxError : EReal
  count : ℕ

/-- The all-Infinity metrics record. -/
def infMetrics : AccuracyMetrics := ⟨⊤, ⊤, ⊤, ⊤, 0⟩

/-- The per-matched-point haversine errors accumulated by the metrics
loop, in ground-truth order. -/
def matchedErrors (groundTruth : List TPoint) (estimated : List Fix) :
    List ℝ :=
  groundTruth.filterMap (fun gt =>
    (estLookup estimated (round3 gt.timestamp)).map (fun est =>
      haversineDistance gt.lat gt.lon est.lat est.lon))

/-- calculateAccuracyMetrics of analysis/metrics.js: match estimated
points to ground-truth timestamps through the rounded key, then
aggregate MSE/RMSE/MAE/max/count. -/
def calculateAccuracyMetrics (groundTruth : List TPoint)
    (estimated : List Fix) : AccuracyMetrics :=
  match estimated with
  | [] => infMetrics
  | _ :: _ =>
    let errs := matchedErrors groundTruth estimated
    if errs.length = 0 then infMetrics
    else
      let sumSquaredError := (errs.map (fun e => e * e)).sum
      let sumAbsError := errs.sum
      let maxErr := errs.foldl max 0
      let count := errs.length
      let mse := sumSquaredError / count
      ⟨(mse : EReal), ((Real.sqrt mse : ℝ) : EReal),
       ((sumAbsError / count : ℝ) : EReal), ((maxErr : ℝ) : EReal), count⟩

/-! ## Trajectory enrichment (analysis/distance.js, quoted in RESULTS.md) -/

/-- Accumulation loop of addDistanceToPoints from the second point on:
cumulative haversine distance from the lap start. -/
def addDistGo (prev : TPoint) (cumulative : ℝ) : List TPoint → List TPoint
  | [] => []
  | p :: rest =>
    let c := cumulative + haversineDistance prev.lat prev.lon p.lat p.lon
    { p with distance := c } :: addDistGo p c rest

/-- addDistanceToPoints of analysis/distance.js: distance 0 at the first
point, then the cumulative haversine sum. -/
def addDistanceToPoints : List TPoint → List TPoint
  | [] => []
  | p :: rest => { p with distance := 0 } :: addDistGo p 0 rest

/-- addLapPosition of analysis/distance.js: distance divided by the last
point's distance, or 0 everywhere when the total is zero. -/
def addLapPosition (points : List TPoint) : List TPoint :=
  match points with
  | [] => []
  | _ :: _ =>
    let totalDist := (points.getLast?.getD dfltT).distance
    if totalDist = 0 then points.map (fun p => { p with lapPosition := 0 })
    else points.map (fun p => { p with lapPosition := p.distance / totalDist })

/-- addLapTime of analysis/distance.js: timestamp minus the first
point's timestamp. -/
def addLapTime (points : List TPoint) : List TPoint :=
  match points with
  | [] => []
  | p0 :: _ => points.map (fun p => { p with lapTime := p.timestamp - p0.timestamp })

/-- enhanceTelemetryPoints of analysis/distance.js: the three enrichment
passes plus the lap totals (points, totalDistance, duration). -/
def enhanceTelemetryPoints (points : List TPoint) : List TPoint × ℝ × ℝ :=
  match points with
  | [] => ([], 0, 0)
  | _ :: _ =>
    let enhanced := addLapTime (addLapPosition (addDistanceToPoints points))
    (enhanced, (enhanced.getLast?.getD dfltT).distance,
     (enhanced.getLast?.getD dfltT).lapTime)

/-- The chart-data arrays of createChartData (analysis/distance.js). -/
structure ChartData where
  timestamps : List ℝ
  distances : List ℝ
  speeds : List ℝ
  lateralAcc : List ℝ
  longitudinalAcc : List ℝ
  lapPositions : List ℝ
  bearings : List ℝ
  lats : List ℝ
  lons : List ℝ

/-- createChartData of analysis/distance.js: every interval-th enriched
point, mapped to the chart channels (speed converted to km/h). -/
def createChartData (points : List TPoint) (targetHz : ℝ) : ChartData :=
  match points with
  | [] => ⟨[], [], [], [], [], [], [], [], []⟩
  | _ :: _ =>
    let interval : ℤ := max 1 (round ((25 : ℝ) / targetHz))
    let sampled := (points.enum.filter
      (fun x => decide (x.1 % interval.toNat = 0))).map Prod.snd
    ⟨sampled.map TPoint.lapTime, sampled.map TPoint.distance,
     sampled.map (fun p => p.speed * 3.6), sampled.map TPoint.lateral_acc,
     sampled.map TPoint.longitudinal_acc, sampled.map TPoint.lapPosition,
     sampled.map TPoint.bearing, sampled.map TPoint.lat,
     sampled.map TPoint.lon⟩

/-! ## GPS simulation (gps/simulation.js) -/

/-- The Math.random() source: an infinite stream of uniform samples and
the position of the next unread one.  Two runs from the same seed are
two runs from the same stream and position. -/
structure Rng where
  stream : ℕ → ℝ
  pos : ℕ

/-- gaussianRandom of src/math/geometry.js: Box–Muller transform from
the next two uniform samples. -/
def gaussianRandom (mean stddev : ℝ) (r : Rng) : ℝ × Rng :=
  let u1 := r.stream r.pos
  let u2 := r.stream (r.pos + 1)
  let z0 := Real.sqrt (-2.0 * Real.log u1) * Real.cos (2.0 * Real.pi * u2)
  (z0 * stddev + mean, ⟨r.stream, r.pos + 2⟩)

/-- The downsampled fix downsampleGPS pushes: the telemetry point's
fields with the original sample index attached. -/
def toGPoint (p : TPoint) (idx : ℕ) : GPoint :=
  ⟨p.timestamp, p.lat, p.lon, some p.speed, some p.bearing, some p.yaw_rate,
   some p.lateral_acc, some p.accuracy, idx⟩

/-- Fractional-stride loop of downsampleGPS: real loop counter, floored
index.  The JavaScript loop diverges for a non-positive stride; the
configured rates make it positive. -/
def downsampleGo (data : List TPoint) (ratio : ℝ) (i : ℝ) : List GPoint :=
  if h : i < (data.length : ℝ) ∧ 0 < ratio then
    toGPoint (data.getD ⌊i⌋₊ dfltT) ⌊i⌋₊ :: downsampleGo data ratio (i + ratio)
  else []
termination_by (⌈((data.length : ℝ) - i) / ratio⌉).toNat
decreasing_by
  have hlen : i < (data.length : ℝ) := h.1
  have hr : (0 : ℝ) < ratio := h.2
  have hx : (0 : ℝ) < ((data.length : ℝ) - i) / ratio :=
    div_pos (by linarith) hr
  have hceil : 0 < ⌈((data.length : ℝ) - i) / ratio⌉ := Int.ceil_pos.mpr hx
  have harg : ((data.length : ℝ) - (i + ratio)) / ratio
      = ((data.length : ℝ) - i) / ratio - 1 := by
    field_simp
    ring
  rw [harg]
  have hsub : ⌈((data.length : ℝ) - i) / ratio - 1⌉
      = ⌈((data.length : ℝ) - i) / ratio⌉ - 1 := by
    have h1 := Int.ceil_sub_int (((data.length : ℝ) - i) / ratio) 1
    push_cast at h1
    exact h1
  rw [hsub]
  omega

/-- downsampleGPS of gps/simulation.js: stride imuHz/gpsHz through the
enriched samples, tagging each with its source index. -/
def downsampleGPS (cfg : Config) (data : List TPoint) : List GPoint :=
  downsampleGo data ((cfg.sampling.imuHz : ℝ) / (cfg.sampling.gpsHz : ℝ)) 0

/-- Per-point loop of addGPSNoise: one Gaussian sample for latitude, one
for longitude, metres converted to degrees at the point's latitude. -/
def addGPSNoiseGo (cfg : Config) (avgNoise : ℝ) :
    List GPoint → Rng → List GPoint × Rng
  | [], r => ([], r)
  | p :: rest, r =>
    let n1 := gaussianRandom 0 avgNoise r
    let n2 := gaussianRandom 0 avgNoise n1.2
    let cosLat := Real.cos (p.lat * Real.pi / 180)
    let p1 := { p with lat := p.lat + n1.1 / cfg.METERS_PER_DEG_LAT,
                       lon := p.lon + n2.1 / (cfg.METERS_PER_DEG_LAT * cosLat) }
    let rec1 := addGPSNoiseGo cfg avgNoise rest n2.2
    (p1 :: rec1.1, rec1.2)

/-- addGPSNoise of gps/simulation.js: Gaussian position noise with
standard deviation the mean of the configured bounds, gated by
noise.enabled. -/
def addGPSNoise (cfg : Config) (points : List GPoint) (r : Rng) :
    List GPoint × Rng :=
  if cfg.noise.enabled = false then (points, r)
  else addGPSNoiseGo cfg ((cfg.noise.minMeters + cfg.noise.maxMeters) / 2) points r

/-! ## Orchestration (src/runner.js, browser/process.js) -/

/-- One row of the experiment table of runEkfExperiments
(src/runner.js lines 52-61). -/
structure ExperimentSpec where
  label : String
  sigma_accel : ℝ
  sigma_gyro : ℝ
  sigma_bias : ℝ
  gps_pos_noise : ℝ

/-- The enumerated parameter grid of runEkfExperiments. -/
def experimentsList : List ExperimentSpec :=
  [⟨"Default", 0.5, 0.02, 0.001, 5.0⟩,
   ⟨"Trust GPS more", 2.0, 0.1, 0.001, 2.0⟩,
   ⟨"Trust IMU more", 0.1, 0.01, 0.01, 15.0⟩,
   ⟨"High bias adapt", 0.5, 0.02, 0.1, 5.0⟩,
   ⟨"Very high GPS trust", 5.0, 0.2, 0.001, 1.0⟩,
   ⟨"Balanced v2", 1.0, 0.05, 0.01, 3.0⟩,
   ⟨"Low accel noise", 0.2, 0.02, 0.01, 5.0⟩,
   ⟨"High accel noise", 3.0, 0.05, 0.001, 3.0⟩]

/-- The four-field parameter object handed to runEkfExperiment. -/
structure EkfPatch where
  sigma_accel : ℝ
  sigma_gyro : ℝ
  sigma_bias : ℝ
  gps_pos_noise : ℝ

/-- Object.assign(CONFIG.ekf, ekfConfig) for the four swept fields. -/
def assignPatch (e : EkfConfig) (p : EkfPatch) : EkfConfig :=
  { e with sigma_accel := p.sigma_accel, sigma_gyro := p.sigma_gyro,
           sigma_bias := p.sigma_bias, gps_pos_noise := p.gps_pos_noise }

/-- runEkfExperiment of src/runner.js: snapshot CONFIG.ekf, apply the
experimental parameters, run the EKF and score it, then write the
snapshot back.  The global CONFIG becomes an explicit value threaded in
and out. -/
def runEkfExperiment (cfg : Config) (full : List TPoint) (gps : List GPoint)
    (patch : EkfPatch) : AccuracyMetrics × Config :=
  let originalConfig := cfg.ekf
  let cfg1 := { cfg with ekf := assignPatch cfg.ekf patch }
  let ekfResult := runSensorFusion cfg1 full gps
  let metrics := calculateAccuracyMetrics full ekfResult
  (metrics, { cfg1 with ekf := originalConfig })

/-- The spread {...exp, ...metrics} rows collected by
runEkfExperiments. -/
structure ExperimentResult where
  label : String
  sigma_accel : ℝ
  sigma_gyro : ℝ
  sigma_bias : ℝ
  gps_pos_noise : ℝ
  mse : EReal
  rmse : EReal
  mae : EReal
  maxError : EReal
  count : ℕ

/-- Default experiment row for out-of-bounds reads. -/
def dfltER : ExperimentResult := ⟨"", 0, 0, 0, 0, ⊤, ⊤, ⊤, ⊤, 0⟩

/-- Stable insertion of a row into a list sorted by ascending RMSE: the
embedding of Array.prototype.sort with comparator a.rmse − b.rmse. -/
def insertByRmse (a : ExperimentResult) :
    List ExperimentResult → List ExperimentResult
  | [] => [a]
  | b :: rest =>
    if a.rmse < b.rmse then a :: b :: rest else b :: insertByRmse a rest

/-- Stable sort by ascending RMSE (results.sort of src/runner.js). -/
def sortByRmse : List ExperimentResult → List ExperimentResult
  | [] => []
  | a :: rest => insertByRmse a (sortByRmse rest)

/-- runEkfExperiments of src/runner.js: run the grid, collect the spread
rows, sort by RMSE ascending. -/
def runEkfExperiments (cfg : Config) (full : List TPoint)
    (gps : List GPoint) : List ExperimentResult × Config :=
  let folded := experimentsList.foldl
    (fun acc exp =>
      let r := runEkfExperiment acc.2 full gps
        ⟨exp.sigma_accel, exp.sigma_gyro, exp.sigma_bias, exp.gps_pos_noise⟩
      (acc.1 ++ [⟨exp.label, exp.sigma_accel, exp.sigma_gyro, exp.sigma_bias,
                  exp.gps_pos_noise, r.1.mse, r.1.rmse, r.1.mae, r.1.maxError,
                  r.1.count⟩], r.2))
    ([], cfg)
  (sortByRmse folded.1, folded.2)

/-- The metrics object runAllAlgorithms returns; metrics.ekfBest carries
the winning configuration row. -/
structure MetricsBundle where
  linear : AccuracyMetrics
  spline : AccuracyMetrics
  ekfRaw : AccuracyMetrics
  ekfSmooth : AccuracyMetrics
  ekfBest : AccuracyMetrics
  ekfBestConfig : ExperimentResult

/-- The record runAllAlgorithms returns. -/
structure AllResults where
  linear : List Fix
  spline : List Fix
  ekfRaw : List Fix
  ekfSmooth : List Fix
  ekfBest : List Fix
  metrics : MetricsBundle

/-- runAllAlgorithms of src/runner.js: the four reconstructors, the
parameter sweep, a final EKF run under the winning parameters with the
CONFIG snapshot written back, and the metrics bundle. -/
def runAllAlgorithms (cfg : Config) (full : List TPoint)
    (gps : List GPoint) : AllResults × Config :=
  let linear := applyLinearInterpolation full gps
  let spline := applySplineInterpolation full gps
  let ekfRaw := runSensorFusion cfg full gps
  let ekfSmooth := smoothTrajectoryWithSpline ekfRaw cfg.sampling.imuHz
  let exps := runEkfExperiments cfg full gps
  let bestConfig := exps.1.headD dfltER
  let cfg1 := exps.2
  let originalEkfConfig := cfg1.ekf
  let cfg2 := { cfg1 with ekf := { cfg1.ekf with
      sigma_accel := bestConfig.sigma_accel,
      sigma_gyro := bestConfig.sigma_gyro,
      sigma_bias := bestConfig.sigma_bias,
      gps_pos_noise := bestConfig.gps_pos_noise } }
  let ekfBest := runSensorFusion cfg2 full gps
  let cfg3 := { cfg2 with ekf := originalEkfConfig }
  (⟨linear, spline, ekfRaw, ekfSmooth, ekfBest,
    ⟨calculateAccuracyMetrics full linear,
     calculateAccuracyMetrics full spline,
     calculateAccuracyMetrics full ekfRaw,
     calculateAccuracyMetrics full ekfSmooth,
     calculateAccuracyMetrics full ekfBest, bestConfig⟩⟩, cfg3)

/-- The per-lap record of processLap (browser/process.js). -/
structure LapResult where
  lap : ℤ
  groundTruth : List TPoint
  totalDistance : ℝ
  chartData : ChartData
  cleanGPS : List GPoint
  noisyGPS : List GPoint
  cleanLinear : List Fix
  cleanSpline : List Fix
  cleanEkfRaw : List Fix
  cleanEkfSmooth : List Fix
  noisyLinear : List Fix
  noisySpline : List Fix
  noisyEkfRaw : List Fix
  noisyEkfSmooth : List Fix
  cleanMetrics : MetricsBundle
  noisyMetrics : MetricsBundle
  outliersClean : ℕ
  outliersNoisy : ℕ
  outliersTotal : ℕ
  duration : ℝ

/-- processLap of browser/process.js: select and origin-normalise the
lap, enrich it, build chart data, downsample, run the clean and noisy
paths through the outlier rejector and all reconstructors.  The random
stream is threaded through the single noise-injection call. -/
def processLap (cfg : Config) (fullDataRaw : List TPoint) (lapNumber : ℤ)
    (r : Rng) : Option LapResult × Rng :=
  let lapDataRaw := fullDataRaw.filter (fun p => decide (p.lap = lapNumber))
  match lapDataRaw with
  | [] => (none, r)
  | q :: _ =>
    let lapDataRaw2 := lapDataRaw.map
      (fun p => { p with timestamp := p.timestamp - q.timestamp })
    let enh := enhanceTelemetryPoints lapDataRaw2
    let lapData := enh.1
    let chartData := createChartData lapData 2
    let gpsDownsampled := downsampleGPS cfg lapData
    let cleanOutlierResult := filterGPSOutliers cfg gpsDownsampled
    let cleanGPS := cleanOutlierResult.filtered
    let noisy := addGPSNoise cfg gpsDownsampled r
    let noisyOutlierResult := filterGPSOutliers cfg noisy.1
    let noisyGPS := noisyOutlierResult.filtered
    let cleanResults := runAllAlgorithms cfg lapData cleanGPS
    let noisyResults := runAllAlgorithms cleanResults.2 lapData noisyGPS
    (some ⟨lapNumber, lapData, enh.2.1, chartData, cleanGPS, noisyGPS,
      cleanResults.1.linear, cleanResults.1.spline, cleanResults.1.ekfRaw,
      cleanResults.1.ekfSmooth, noisyResults.1.linear, noisyResults.1.spline,
      noisyResults.1.ekfRaw, noisyResults.1.ekfSmooth,
      cleanResults.1.metrics, noisyResults.1.metrics,
      cleanOutlierResult.outliers.length, noisyOutlierResult.outliers.length,
      gpsDownsampled.length, enh.2.2⟩, noisy.2)

/-! ## Specification-side variants for comparison -/

/-- The implied-speed reference the code's first pass actually threads
into step i (the value of prevImpliedSpeed when fix i is scored): the
reported speed of fix 0 seeds it, and it becomes the implied speed of
the segment into the previous fix whenever that segment's time delta is
positive, whether or not that fix was accepted. -/
def vPrevUsedAt (pts : List GPoint) : ℕ → ℝ
  | 0 => (pts.headD dfltG).speed.getD 0
  | 1 => (pts.headD dfltG).speed.getD 0
  | k + 2 =>
    let prev := pts.getD k dfltG
    let curr := pts.getD (k + 1) dfltG
    let dt := curr.timestamp - prev.timestamp
    if dt ≤ 0 then vPrevUsedAt pts (k + 1)
    else haversineDistance prev.lat prev.lon curr.lat curr.lon / dt

/-- Single pass of the rejector as the specification words it (§4.3 of
the spec): identical per-fix scoring and decision rule as the code, but
the v_prev fed into the implied-acceleration check advances only when a
fix is accepted, so it is the implied speed of the previous accepted
fix.  Written for comparison with filterGPSOutliers; the code itself is
the two-pass filterGPSOutliers above. -/
def specAcceptedGo (cfg : Config) (pts : List GPoint) (vPrev : ℝ) (i : ℕ) :
    FilterResult :=
  if h : i < pts.length then
    let prev := pts.getD (i - 1) dfltG
    let curr := pts.getD i dfltG
    let dt := curr.timestamp - prev.timestamp
    let score := if dt ≤ 0 then (⟨zeroScores, 0, vPrev⟩ : ScoreRec)
      else calculateAnomalyScore cfg prev curr dt (some vPrev)
    if isOutlierAt cfg pts i score.totalScore then
      let rest := specAcceptedGo cfg pts vPrev (i + 1)
      ⟨rest.filtered,
       ⟨curr, (if isTemporalOutlier cfg pts i then "temporal+physics" else "physics"),
        score.scores, score.totalScore, 0⟩ :: rest.outliers⟩
    else
      let rest := specAcceptedGo cfg pts score.impliedSpeed (i + 1)
      ⟨curr :: rest.filtered, rest.outliers⟩
  else ⟨[], []⟩
termination_by pts.length - i

/-- The whole rejector under the specification's v_prev rule: same
gating and first-fix handling as filterGPSOutliers, physics pass by
specAcceptedGo. -/
def filterGPSOutliersSpecAccepted (cfg : Config) (gpsPoints : List GPoint) :
    FilterResult :=
  if cfg.outlierDetection.enabled = false then ⟨gpsPoints, []⟩
  else if gpsPoints.length < 2 then ⟨gpsPoints, []⟩
  else if cfg.outlierDetection.method = OutlierMethod.simple then
    filterGPSOutliersSimple cfg gpsPoints
  else
    let seed := (gpsPoints.headD dfltG).speed.getD 0
    let rest := specAcceptedGo cfg gpsPoints seed 1
    ⟨gpsPoints.headD dfltG :: rest.filtered, rest.outliers⟩

/-! ## Concrete fixes used by the counterexamples -/

/-- Three stationary fixes with decreasing reported speeds; the middle
one is rejected by the physics filter on the first run. -/
def cexP0 : GPoint := { timestamp := 0, lat := 0, lon := 0, speed := some 200 }

/-- Second concrete fix. -/
def cexP1 : GPoint := { timestamp := 1, lat := 0, lon := 0, speed := some 100 }

/-- Third concrete fix. -/
def cexP2 : GPoint := { timestamp := 2, lat := 0, lon := 0, speed := some 0 }

/-- The concrete input sequence of the outlier-filter counterexamples. -/
def cexPoints : List GPoint := [cexP0, cexP1, cexP2]

/-- Score record of the second concrete fix on the first run. -/
def cexScore1 : ScoreRec := calculateAnomalyScore defaultConfig cexP0 cexP1 1 (some 200)

/-- Score record of the third concrete fix on the first run. -/
def cexScore2 : ScoreRec := calculateAnomalyScore defaultConfig cexP1 cexP2 1 (some 0)

/-- The anomaly-score array of the first run on the concrete fixes. -/
def cexScoresL : List ScoreRec := [⟨zeroScores, 0, 200⟩, cexScore1, cexScore2]

/-- The kept output of the first counterexample run, input of the second. -/
def cexRun2L : List GPoint := [cexP0, cexP2]

/-- Score record of the single scored fix on the second run. -/
def cexScore3 : ScoreRec := calculateAnomalyScore defaultConfig cexP0 cexP2 2 (some 200)

/-- Score record of fix 2 under the specification v_prev rule. -/
def cexScore4 : ScoreRec := calculateAnomalyScore defaultConfig cexP1 cexP2 1 (some 200)

/-- The score record the physics pass computes at index i ≥ 1, written
with the explicit v_prev reference vPrevUsedAt. -/
def scoreAt (cfg : Config) (pts : List GPoint) (i : ℕ) : ScoreRec :=
  if (pts.getD i dfltG).timestamp - (pts.getD (i - 1) dfltG).timestamp ≤ 0 then
    ⟨zeroScores, 0, vPrevUsedAt pts i⟩
  else
    calculateAnomalyScore cfg (pts.getD (i - 1) dfltG) (pts.getD i dfltG)
      ((pts.getD i dfltG).timestamp - (pts.getD (i - 1) dfltG).timestamp)
      (some (vPrevUsedAt pts i))

/-- Equator point at longitude 180, antipodal to the origin point; used
by the enrichment witness. -/
def c6P2 : TPoint := { timestamp := 1, lat := 0, lon := 180 }

/-- Four fixes with timestamps 0..3, used by the spline witness. -/
def c7Gps : List GPoint :=
  [{ timestamp := 0, lat := 10, lon := 20 }, { timestamp := 1, lat := 11, lon := 21 },
   { timestamp := 2, lat := 12, lon := 22 }, { timestamp := 3, lat := 13, lon := 23 }]

/-- Two full-data samples at the inner control timestamps 1 and 2. -/
def c7Full : List TPoint :=
  [{ timestamp := 1, lat := 0, lon := 0 }, { timestamp := 2, lat := 0, lon := 0 }]

/-- A single slow fix (speed 1 m/s, below the 2 m/s heading threshold),
used by the initialization-fallback witness. -/
def c10Fix : GPoint :=
  { timestamp := 0, lat := 5, lon := 6, speed := some 1, bearing := some 90 }

/-- A slow start fix at the origin heading north at 3 m/s, used by the
duplicate-timestamp counterexample. -/
def c3G0 : GPoint :=
  { timestamp := 0, lat := 0, lon := 0, speed := some 3, bearing := some 0 }

/-- An IMU sample with zero accelerations and yaw rate at timestamp 1. -/
def c3Imu : TPoint := { timestamp := 1, lat := 0, lon := 0 }

/-- Two consecutive samples with the same (duplicate) timestamp. -/
def c3Full : List TPoint := [c3Imu, c3Imu]

/-! ## Supporting lemmas -/

/-- After the first loop the angle is at most π. -/
theorem normDown_le (a : ℝ) : normDown a ≤ Real.pi := by
  induction a using normDown.induct with
  | case1 a h ih => rw [normDown, dif_pos h]; exact ih
  | case2 a h => rw [normDown, dif_neg h]; exact le_of_not_lt h

/-- The second loop does not move an angle already at least −π. -/
theorem normUp_eq_of_ge {a : ℝ} (h : -Real.pi ≤ a) : normUp a = a := by
  rw [normUp, dif_neg (not_lt.mpr h)]

/-- The second loop yields an angle at least −π. -/
theorem neg_pi_le_normUp (a : ℝ) : -Real.pi ≤ normUp a := by
  induction a using normUp.induct with
  | case1 a h ih => rw [normUp, dif_pos h]; exact ih
  | case2 a h => rw [normUp, dif_neg h]; exact le_of_not_lt h

/-- The second loop keeps an angle that is at most π at most π. -/
theorem normUp_le {a : ℝ} (h : a ≤ Real.pi) : normUp a ≤ Real.pi := by
  induction a using normUp.induct with
  | case1 a hlt ih =>
      rw [normUp, dif_pos hlt]
      exact ih (by have := Real.pi_pos; linarith)
  | case2 a hlt => rw [normUp, dif_neg hlt]; exact h

/-- Range of normalizeAngle: the closed interval [−π, π]. -/
theorem normalizeAngle_mem (a : ℝ) :
    -Real.pi ≤ normalizeAngle a ∧ normalizeAngle a ≤ Real.pi :=
  ⟨neg_pi_le_normUp _, normUp_le (normDown_le a)⟩

/-- normalizeAngle fixes any angle already inside [−π, π]. -/
theorem normalizeAngle_eq_self {a : ℝ} (h1 : -Real.pi ≤ a)
    (h2 : a ≤ Real.pi) : normalizeAngle a = a := by
  rw [normalizeAngle, normDown, dif_neg (not_lt.mpr h2), normUp,
    dif_neg (not_lt.mpr h1)]

/-- normalizeAngle fixes 0. -/
theorem normalizeAngle_zero : normalizeAngle 0 = 0 :=
  normalizeAngle_eq_self (by have := Real.pi_pos; linarith)
    (by have := Real.pi_pos; linarith)

/-- The arctangent of a nonnegative real is nonnegative. -/
theorem arctan_nonneg_of {t : ℝ} (h : 0 ≤ t) : 0 ≤ Real.arctan t := by
  have hm := Real.arctan_strictMono.monotone h
  rwa [Real.arctan_zero] at hm

/-- atan2 is nonnegative when its first argument is. -/
theorem atan2_nonneg {y x : ℝ} (hy : 0 ≤ y) : 0 ≤ atan2 y x := by
  unfold atan2
  have hpi := Real.pi_pos
  by_cases h1 : 0 < x
  · rw [if_pos h1]
    exact arctan_nonneg_of (div_nonneg hy h1.le)
  · rw [if_neg h1]
    by_cases h2 : x < 0
    · rw [if_pos h2, if_pos hy]
      have := Real.neg_pi_div_two_lt_arctan (y / x)
      linarith
    · rw [if_neg h2]
      by_cases h3 : 0 < y
      · rw [if_pos h3]
        linarith
      · rw [if_neg h3, if_neg (not_lt.mpr hy)]

/-- The haversine distance is nonnegative for every input. -/
theorem haversineDistance_nonneg (lat1 lon1 lat2 lon2 : ℝ) :
    0 ≤ haversineDistance lat1 lon1 lat2 lon2 := by
  unfold haversineDistance
  have h := atan2_nonneg (x := Real.sqrt (1 -
      (Real.sin ((lat2 - lat1) * Real.pi / 180 / 2) ^ 2 +
        Real.cos (lat1 * Real.pi / 180) * Real.cos (lat2 * Real.pi / 180) *
          Real.sin ((lon2 - lon1) * Real.pi / 180 / 2) ^ 2)))
    (Real.sqrt_nonneg (Real.sin ((lat2 - lat1) * Real.pi / 180 / 2) ^ 2 +
        Real.cos (lat1 * Real.pi / 180) * Real.cos (lat2 * Real.pi / 180) *
          Real.sin ((lon2 - lon1) * Real.pi / 180 / 2) ^ 2))
  positivity

/-- The haversine distance from a point to itself is zero. -/
theorem haversineDistance_self (lat lon : ℝ) :
    haversineDistance lat lon lat lon = 0 := by
  unfold haversineDistance atan2
  simp

/-! ## Claim C1 -/

/-- Claim C1, counterexample: normalize_angle does not map into the
half-open interval (−π, π]; at the input −π it returns −π itself, so −π
is a returned value and the output is not always above −π. -/
theorem c1_neg_pi_is_returned :
    normalizeAngle (-Real.pi) = -Real.pi ∧
      ¬ (-Real.pi < normalizeAngle (-Real.pi)) := by
  have hpi := Real.pi_pos
  have h : normalizeAngle (-Real.pi) = -Real.pi :=
    normalizeAngle_eq_self (le_refl _) (by linarith)
  exact ⟨h, by rw [h]; exact lt_irrefl _⟩

/-- Claim C1 as amended: normalize_angle maps every real angle into the
closed interval [−π, π] (the endpoint −π is attained), and consequently
the EKF heading ψ, re-normalised by this function in predict and
update, lies in [−π, π] after every step that touches it (predict and
update leave ψ unchanged when the filter is uninitialised). -/
theorem c1_normalizeAngle_range :
    (∀ a : ℝ, -Real.pi ≤ normalizeAngle a ∧ normalizeAngle a ≤ Real.pi) ∧
    (∀ (cfg : Config) (st : EkfState) (imu : TPoint) (dt : ℝ),
      (predict cfg st imu dt).x.psi = st.x.psi ∨
        (-Real.pi ≤ (predict cfg st imu dt).x.psi ∧
          (predict cfg st imu dt).x.psi ≤ Real.pi)) ∧
    (∀ (cfg : Config) (st : EkfState) (g : GPoint),
      (update cfg st g).x.psi = st.x.psi ∨
        (-Real.pi ≤ (update cfg st g).x.psi ∧
          (update cfg st g).x.psi ≤ Real.pi)) := by
  refine ⟨normalizeAngle_mem, ?_, ?_⟩
  · intro cfg st imu dt
    by_cases hinit : st.initialized = false
    · left
      simp [predict, hinit]
    · right
      simp only [predict, hinit, if_false]
      exact normalizeAngle_mem _
  · intro cfg st g
    by_cases hinit : st.initialized = false
    · left
      simp [update, hinit]
    · right
      simp only [update, hinit, if_false]
      exact normalizeAngle_mem _

/-! ## Evaluation of the outlier filter on the concrete fixes -/

theorem cex_total1 : cexScore1.totalScore = (200 - 19.62) / 19.62 * 2 + (100 - 15) / 15 := by
  norm_num [cexScore1, calculateAnomalyScore, defaultConfig, cexP0, cexP1,
    haversineDistance_self]

theorem cex_total2 : cexScore2.totalScore = 0 := by
  norm_num [cexScore2, calculateAnomalyScore, defaultConfig, cexP1, cexP2,
    haversineDistance_self]

theorem cex_implied1 :
    (calculateAnomalyScore defaultConfig cexP0 cexP1 1 (some 200)).impliedSpeed = 0 := by
  norm_num [calculateAnomalyScore, defaultConfig, cexP0, cexP1,
    haversineDistance_self]

theorem cex_go3 (v : ℝ) : anomalyScoresGo defaultConfig cexPoints v 3 = [] := by
  rw [anomalyScoresGo]
  norm_num [show cexPoints.length = 3 from rfl]

theorem cex_go2 (v : ℝ) : anomalyScoresGo defaultConfig cexPoints v 2 =
    [calculateAnomalyScore defaultConfig cexP1 cexP2 1 (some v)] := by
  rw [anomalyScoresGo]
  simp only [show cexPoints.length = 3 from rfl,
    show cexPoints.getD 1 dfltG = cexP1 from rfl,
    show cexPoints.getD 2 dfltG = cexP2 from rfl,
    show cexP1.timestamp = 1 from rfl, show cexP2.timestamp = 2 from rfl]
  norm_num [cex_go3]

theorem cex_go1 : anomalyScoresGo defaultConfig cexPoints 200 1 = [cexScore1, cexScore2] := by
  rw [anomalyScoresGo]
  simp only [show cexPoints.length = 3 from rfl,
    show cexPoints.getD 0 dfltG = cexP0 from rfl,
    show cexPoints.getD 1 dfltG = cexP1 from rfl,
    show (1 : ℕ) - 1 = 0 from rfl,
    show cexP0.timestamp = 0 from rfl, show cexP1.timestamp = 1 from rfl]
  norm_num [cex_go2, cex_implied1, cexScore1, cexScore2]

theorem cex_scores : anomalyScores defaultConfig cexPoints = cexScoresL := by
  unfold anomalyScores cexScoresL
  simp only [show (cexPoints.headD dfltG).speed.getD 0 = 200 from rfl, cex_go1]

theorem cex_notemp1 : ¬ isTemporalOutlier defaultConfig cexPoints 1 := by
  unfold isTemporalOutlier triangleRatioAt
  simp only [show (1 : ℕ) - 1 = 0 from rfl,
    show cexPoints.getD 0 dfltG = cexP0 from rfl,
    show cexPoints.getD 1 dfltG = cexP1 from rfl,
    show cexPoints.getD 2 dfltG = cexP2 from rfl,
    show cexP0.lat = 0 from rfl, show cexP0.lon = 0 from rfl,
    show cexP1.lat = 0 from rfl, show cexP1.lon = 0 from rfl,
    show cexP2.lat = 0 from rfl, show cexP2.lon = 0 from rfl,
    haversineDistance_self]
  norm_num [defaultConfig, max_def]

theorem cex_notemp2 : ¬ isTemporalOutlier defaultConfig cexPoints 2 := by
  unfold isTemporalOutlier
  norm_num [show cexPoints.length = 3 from rfl]

theorem cex_out1 : isOutlierAt defaultConfig cexPoints 1 cexScore1.totalScore := by
  unfold isOutlierAt
  left
  rw [cex_total1]
  norm_num [defaultConfig]

theorem cex_noout2 : ¬ isOutlierAt defaultConfig cexPoints 2 cexScore2.totalScore := by
  unfold isOutlierAt
  rw [cex_total2]
  push_neg
  refine ⟨by norm_num [defaultConfig], ?_⟩
  intro h
  exact absurd h cex_notemp2

theorem cex_pass3 (S : List ScoreRec) :
    physicsPassGo defaultConfig cexPoints S 3 = ⟨[], []⟩ := by
  rw [physicsPassGo]
  norm_num [show cexPoints.length = 3 from rfl]

theorem cex_pass2 : physicsPassGo defaultConfig cexPoints cexScoresL 2 = ⟨[cexP2], []⟩ := by
  rw [physicsPassGo]
  simp only [show cexPoints.length = 3 from rfl,
    show cexScoresL.getD 2 dfltRec = cexScore2 from rfl,
    show cexPoints.getD 2 dfltG = cexP2 from rfl]
  norm_num [cex_pass3, if_neg cex_noout2]

theorem cex_pass1 : physicsPassGo defaultConfig cexPoints cexScoresL 1 =
    ⟨[cexP2], [⟨cexP1, "physics", cexScore1.scores, cexScore1.totalScore, 0⟩]⟩ := by
  rw [physicsPassGo]
  simp only [show cexPoints.length = 3 from rfl,
    show cexScoresL.getD 1 dfltRec = cexScore1 from rfl,
    show cexPoints.getD 1 dfltG = cexP1 from rfl]
  norm_num [cex_pass2, if_pos cex_out1, if_neg cex_notemp1]

theorem cex_run1 : filterGPSOutliers defaultConfig cexPoints =
    ⟨[cexP0, cexP2], [⟨cexP1, "physics", cexScore1.scores, cexScore1.totalScore, 0⟩]⟩ := by
  rw [filterGPSOutliers]
  rw [if_neg (by norm_num [defaultConfig])]
  rw [if_neg (by norm_num [show cexPoints.length = 3 from rfl])]
  rw [if_neg (by simp [defaultConfig])]
  simp only [cex_scores, cex_pass1, show cexPoints.headD dfltG = cexP0 from rfl]

theorem cex2_total3 : cexScore3.totalScore = (100 - 19.62) / 19.62 * 2 := by
  norm_num [cexScore3, calculateAnomalyScore, defaultConfig, cexP0, cexP2,
    haversineDistance_self]

theorem cex2_go2 (v : ℝ) : anomalyScoresGo defaultConfig cexRun2L v 2 = [] := by
  rw [anomalyScoresGo]
  norm_num [show cexRun2L.length = 2 from rfl]

theorem cex2_go1 : anomalyScoresGo defaultConfig cexRun2L 200 1 = [cexScore3] := by
  rw [anomalyScoresGo]
  simp only [show cexRun2L.length = 2 from rfl,
    show cexRun2L.getD 0 dfltG = cexP0 from rfl,
    show cexRun2L.getD 1 dfltG = cexP2 from rfl,
    show (1 : ℕ) - 1 = 0 from rfl,
    show cexP0.timestamp = 0 from rfl, show cexP2.timestamp = 2 from rfl]
  norm_num [cex2_go2, cexScore3]

theorem cex2_scores : anomalyScores defaultConfig cexRun2L = [⟨zeroScores, 0, 200⟩, cexScore3] := by
  unfold anomalyScores
  simp only [show (cexRun2L.headD dfltG).speed.getD 0 = 200 from rfl, cex2_go1]

theorem cex2_out1 : isOutlierAt defaultConfig cexRun2L 1 cexScore3.totalScore := by
  unfold isOutlierAt
  left
  rw [cex2_total3]
  norm_num [defaultConfig]

theorem cex2_notemp1 : ¬ isTemporalOutlier defaultConfig cexRun2L 1 := by
  unfold isTemporalOutlier
  norm_num [show cexRun2L.length = 2 from rfl]

theorem cex2_pass2 (S : List ScoreRec) :
    physicsPassGo defaultConfig cexRun2L S 2 = ⟨[], []⟩ := by
  rw [physicsPassGo]
  norm_num [show cexRun2L.length = 2 from rfl]

theorem cex2_pass1 : physicsPassGo defaultConfig cexRun2L [⟨zeroScores, 0, 200⟩, cexScore3] 1 =
    ⟨[], [⟨cexP2, "physics", cexScore3.scores, cexScore3.totalScore, 0⟩]⟩ := by
  rw [physicsPassGo]
  simp only [show cexRun2L.length = 2 from rfl,
    show ([⟨zeroScores, 0, 200⟩, cexScore3] : List ScoreRec).getD 1 dfltRec = cexScore3 from rfl,
    show cexRun2L.getD 1 dfltG = cexP2 from rfl]
  norm_num [cex2_pass2, if_pos cex2_out1, if_neg cex2_notemp1]

theorem cex2_run : filterGPSOutliers defaultConfig cexRun2L =
    ⟨[cexP0], [⟨cexP2, "physics", cexScore3.scores, cexScore3.totalScore, 0⟩]⟩ := by
  rw [filterGPSOutliers]
  rw [if_neg (by norm_num [defaultConfig])]
  rw [if_neg (by norm_num [show cexRun2L.length = 2 from rfl])]
  rw [if_neg (by simp [defaultConfig])]
  simp only [cex2_scores, cex2_pass1, show cexRun2L.headD dfltG = cexP0 from rfl]

/-! ## Sublist lemmas for the rejector -/

theorem physicsPassGo_filtered_sublist (cfg : Config) (pts : List GPoint)
    (scores : List ScoreRec) (i : ℕ) :
    List.Sublist (physicsPassGo cfg pts scores i).filtered (pts.drop i) := by
  have key : ∀ (n i : ℕ), pts.length - i ≤ n →
      List.Sublist (physicsPassGo cfg pts scores i).filtered (pts.drop i) := by
    intro n
    induction n with
    | zero =>
      intro i hle
      rw [physicsPassGo, dif_neg (by omega)]
      exact List.nil_sublist _
    | succ n ih =>
      intro i hle
      by_cases h : i < pts.length
      · have ih2 := ih (i + 1) (by omega)
        have hdrop : pts.getD i dfltG :: pts.drop (i + 1) = pts.drop i := by
          rw [List.getD_eq_getElem _ _ h]
          exact List.getElem_cons_drop pts i h
        rw [physicsPassGo, dif_pos h]
        by_cases hout : isOutlierAt cfg pts i ((scores.getD i dfltRec).totalScore)
        · simp only [if_pos hout]
          exact ih2.trans (hdrop ▸ List.sublist_cons_self _ _)
        · simp only [if_neg hout]
          exact hdrop ▸ ih2.cons₂ _
      · rw [physicsPassGo, dif_neg h]
        exact List.nil_sublist _
  exact key (pts.length - i) i (le_refl _)

theorem simpleGo_filtered_sublist (cfg : Config) :
    ∀ (rest : List GPoint) (prev : GPoint),
      List.Sublist (simpleGo cfg prev rest).filtered rest := by
  intro rest
  induction rest with
  | nil =>
    intro prev
    exact List.Sublist.refl _
  | cons curr rest ih =>
    intro prev
    rw [simpleGo]
    by_cases h1 : curr.timestamp - prev.timestamp ≤ 0
    · simp only [if_pos h1]
      exact (ih curr).cons₂ _
    · simp only [if_neg h1]
      by_cases h2 : cfg.outlierDetection.maxSpeedKmh / 3.6 <
          haversineDistance prev.lat prev.lon curr.lat curr.lon /
            (curr.timestamp - prev.timestamp)
      · simp only [if_pos h2]
        exact (ih prev).trans (List.sublist_cons_self _ _)
      · simp only [if_neg h2]
        by_cases h3 : cfg.outlierDetection.maxJumpMeters <
            haversineDistance prev.lat prev.lon curr.lat curr.lon
        · simp only [if_pos h3]
          exact (ih prev).trans (List.sublist_cons_self _ _)
        · simp only [if_neg h3]
          exact (ih curr).cons₂ _

theorem filterGPSOutliers_filtered_sublist (cfg : Config) (pts : List GPoint) :
    List.Sublist (filterGPSOutliers cfg pts).filtered pts := by
  rw [filterGPSOutliers]
  by_cases h1 : cfg.outlierDetection.enabled = false
  · rw [if_pos h1]
  · rw [if_neg h1]
    by_cases h2 : pts.length < 2
    · rw [if_pos h2]
    · rw [if_neg h2]
      by_cases h3 : cfg.outlierDetection.method = OutlierMethod.simple
      · rw [if_pos h3]
        match pts with
        | [] => exact List.nil_sublist _
        | p :: rest => exact (simpleGo_filtered_sublist cfg rest p).cons₂ _
      · rw [if_neg h3]
        match pts with
        | [] => exact absurd (by norm_num) h2
        | p :: rest =>
          have hs := physicsPassGo_filtered_sublist cfg (p :: rest)
            (anomalyScores cfg (p :: rest)) 1
          simp only [List.drop_one, List.tail_cons] at hs
          exact hs.cons₂ _

theorem cex_total4 : cexScore4.totalScore = (200 - 19.62) / 19.62 * 2 := by
  norm_num [cexScore4, calculateAnomalyScore, defaultConfig, cexP1, cexP2,
    haversineDistance_self]

theorem cexspec_out2 : isOutlierAt defaultConfig cexPoints 2 cexScore4.totalScore := by
  unfold isOutlierAt
  left
  rw [cex_total4]
  norm_num [defaultConfig]

theorem cexspec_go3 (v : ℝ) : specAcceptedGo defaultConfig cexPoints v 3 = ⟨[], []⟩ := by
  rw [specAcceptedGo]
  norm_num [show cexPoints.length = 3 from rfl]

theorem cexspec_go2 : specAcceptedGo defaultConfig cexPoints 200 2 =
    ⟨[], [⟨cexP2, "physics", cexScore4.scores, cexScore4.totalScore, 0⟩]⟩ := by
  rw [specAcceptedGo]
  simp only [show cexPoints.length = 3 from rfl,
    show cexPoints.getD 1 dfltG = cexP1 from rfl,
    show cexPoints.getD 2 dfltG = cexP2 from rfl,
    show (2 : ℕ) - 1 = 1 from rfl,
    show cexP1.timestamp = 1 from rfl, show cexP2.timestamp = 2 from rfl]
  rw [if_neg (by norm_num : ¬ ((2 : ℝ) - 1 ≤ 0)), dif_pos (by norm_num : (2 : ℕ) < 3)]
  rw [show calculateAnomalyScore defaultConfig cexP1 cexP2 (2 - 1) (some 200)
      = cexScore4 by norm_num [cexScore4]]
  rw [if_pos cexspec_out2]
  norm_num [cexspec_go3, if_neg cex_notemp2]

theorem cexspec_go1 : specAcceptedGo defaultConfig cexPoints 200 1 =
    ⟨[], [⟨cexP1, "physics", cexScore1.scores, cexScore1.totalScore, 0⟩,
          ⟨cexP2, "physics", cexScore4.scores, cexScore4.totalScore, 0⟩]⟩ := by
  rw [specAcceptedGo]
  simp only [show cexPoints.length = 3 from rfl,
    show cexPoints.getD 0 dfltG = cexP0 from rfl,
    show cexPoints.getD 1 dfltG = cexP1 from rfl,
    show (1 : ℕ) - 1 = 0 from rfl,
    show cexP0.timestamp = 0 from rfl, show cexP1.timestamp = 1 from rfl]
  rw [dif_pos (by norm_num : (1 : ℕ) < 3), if_neg (by norm_num : ¬ ((1 : ℝ) - 0 ≤ 0))]
  rw [show calculateAnomalyScore defaultConfig cexP0 cexP1 (1 - 0) (some 200)
      = cexScore1 by norm_num [cexScore1]]
  rw [if_pos cex_out1]
  norm_num [cexspec_go2, if_neg cex_notemp1]

theorem cexspec_run : filterGPSOutliersSpecAccepted defaultConfig cexPoints =
    ⟨[cexP0], [⟨cexP1, "physics", cexScore1.scores, cexScore1.totalScore, 0⟩,
               ⟨cexP2, "physics", cexScore4.scores, cexScore4.totalScore, 0⟩]⟩ := by
  rw [filterGPSOutliersSpecAccepted]
  rw [if_neg (by norm_num [defaultConfig])]
  rw [if_neg (by norm_num [show cexPoints.length = 3 from rfl])]
  rw [if_neg (by simp [defaultConfig])]
  simp only [show cexPoints.headD dfltG = cexP0 from rfl,
    show cexP0.speed.getD 0 = (200 : ℝ) from rfl, cexspec_go1]

/-! ## The v_prev actually threaded through the scoring pass -/

theorem calculateAnomalyScore_impliedSpeed (cfg : Config) (prev curr : GPoint)
    (dt : ℝ) (v : Option ℝ) :
    (calculateAnomalyScore cfg prev curr dt v).impliedSpeed =
      haversineDistance prev.lat prev.lon curr.lat curr.lon / dt := rfl

theorem vPrevUsedAt_succ (pts : List GPoint) (i : ℕ) (hi : 1 ≤ i) :
    vPrevUsedAt pts (i + 1) =
      (if (pts.getD i dfltG).timestamp - (pts.getD (i - 1) dfltG).timestamp ≤ 0
       then vPrevUsedAt pts i
       else haversineDistance (pts.getD (i - 1) dfltG).lat (pts.getD (i - 1) dfltG).lon
         (pts.getD i dfltG).lat (pts.getD i dfltG).lon /
           ((pts.getD i dfltG).timestamp - (pts.getD (i - 1) dfltG).timestamp)) := by
  match i, hi with
  | k + 1, _ =>
    rw [show k + 1 + 1 = k + 2 from rfl, vPrevUsedAt]
    simp only [show k + 1 - 1 = k from rfl]

theorem anomalyScoresGo_step (cfg : Config) (pts : List GPoint) (i : ℕ)
    (hi : 1 ≤ i) (hlen : i < pts.length) :
    anomalyScoresGo cfg pts (vPrevUsedAt pts i) i =
      scoreAt cfg pts i ::
        anomalyScoresGo cfg pts (vPrevUsedAt pts (i + 1)) (i + 1) := by
  rw [anomalyScoresGo, dif_pos hlen, scoreAt]
  by_cases hdt : (pts.getD i dfltG).timestamp - (pts.getD (i - 1) dfltG).timestamp ≤ 0
  · simp only [if_pos hdt]
    rw [vPrevUsedAt_succ pts i hi, if_pos hdt]
  · simp only [if_neg hdt]
    rw [calculateAnomalyScore_impliedSpeed,
      vPrevUsedAt_succ pts i hi, if_neg hdt]

theorem anomalyScoresGo_getD (cfg : Config) (pts : List GPoint) :
    ∀ (d i : ℕ), 1 ≤ i → i + d < pts.length →
      (anomalyScoresGo cfg pts (vPrevUsedAt pts i) i).getD d dfltRec =
        scoreAt cfg pts (i + d) := by
  intro d
  induction d with
  | zero =>
    intro i hi hlen
    rw [anomalyScoresGo_step cfg pts i hi (by omega)]
    rfl
  | succ d ih =>
    intro i hi hlen
    rw [anomalyScoresGo_step cfg pts i hi (by omega)]
    have := ih (i + 1) (by omega) (by omega)
    simpa [show i + (d + 1) = i + 1 + d by omega] using this

/-! ## Claims C2 and C4 -/

/-- Claim C2, counterexample: the v_prev threaded into the
implied-acceleration score is not the implied speed of the previous
accepted fix.  On the concrete stationary fixes, fix 1 is rejected and
the code then scores fix 2 against fix 1's implied speed (0), keeping
it; under the claimed rule (v_prev from the previous accepted fix) the
same decision procedure rejects fix 2 as well, so the kept sets
differ. -/
theorem c2_vprev_not_previous_accepted :
    (filterGPSOutliers defaultConfig cexPoints).filtered = [cexP0, cexP2] ∧
      (filterGPSOutliersSpecAccepted defaultConfig cexPoints).filtered = [cexP0] := by
  constructor
  · rw [cex_run1]
  · rw [cexspec_run]

/-- Claim C2 as amended: in physics mode the score record of every fix
i ≥ 1 equals calculateAnomalyScore applied to the raw predecessor i−1
with v_prev = vPrevUsedAt, the implied speed of the segment into the
previous fix of the raw input — accepted or rejected — carried over
unchanged across non-positive time deltas and seeded by the first fix's
reported speed (or 0 when missing). -/
theorem c2_vprev_is_previous_raw_segment (cfg : Config) (pts : List GPoint)
    (i : ℕ) (h1 : 1 ≤ i) (h2 : i < pts.length) :
    (anomalyScores cfg pts).getD i dfltRec = scoreAt cfg pts i := by
  obtain ⟨j, rfl⟩ : ∃ j, i = j + 1 := ⟨i - 1, by omega⟩
  unfold anomalyScores
  rw [List.getD_cons_succ]
  rw [show (pts.headD dfltG).speed.getD 0 = vPrevUsedAt pts 1 from rfl]
  have h := anomalyScoresGo_getD cfg pts j 1 (le_refl 1) (by omega)
  rw [show 1 + j = j + 1 by omega] at h
  exact h

/-- Witness for the amended claim C2 at fix 1 of the concrete input. -/
theorem c2_vprev_witness :
    1 ≤ 1 ∧ 1 < cexPoints.length ∧
      (anomalyScores defaultConfig cexPoints).getD 1 dfltRec =
        scoreAt defaultConfig cexPoints 1 :=
  ⟨le_refl 1, by norm_num [show cexPoints.length = 3 from rfl],
   c2_vprev_is_previous_raw_segment defaultConfig cexPoints 1 (le_refl 1)
     (by norm_num [show cexPoints.length = 3 from rfl])⟩

/-- Claim C4, counterexample: the outlier rejector is not idempotent.
On the concrete stationary fixes the first run keeps [cexP0, cexP2];
rerunning on that kept output rejects cexP2 (its implied acceleration is
now measured against the first fix's reported speed over the doubled
time delta), so the kept set shrinks and the rejected set is
non-empty. -/
theorem c4_not_idempotent :
    (filterGPSOutliers defaultConfig cexPoints).filtered = [cexP0, cexP2] ∧
    (filterGPSOutliers defaultConfig
        (filterGPSOutliers defaultConfig cexPoints).filtered).filtered = [cexP0] ∧
    (filterGPSOutliers defaultConfig
        (filterGPSOutliers defaultConfig cexPoints).filtered).outliers ≠ [] := by
  have h1 : (filterGPSOutliers defaultConfig cexPoints).filtered = [cexP0, cexP2] := by
    rw [cex_run1]
  have h2 : ([cexP0, cexP2] : List GPoint) = cexRun2L := rfl
  refine ⟨h1, ?_, ?_⟩
  · rw [h1, h2, cex2_run]
  · rw [h1, h2, cex2_run]
    simp

/-- Claim C4 as amended: each application of the rejector returns an
order-preserving subsequence of its input; in particular re-running it
on its own kept output yields a subsequence of that output, but not
necessarily the same set (idempotence fails, see the counterexample). -/
theorem c4_reapplication_sublist (cfg : Config) (pts : List GPoint) :
    List.Sublist (filterGPSOutliers cfg pts).filtered pts ∧
    List.Sublist
      (filterGPSOutliers cfg (filterGPSOutliers cfg pts).filtered).filtered
      (filterGPSOutliers cfg pts).filtered :=
  ⟨filterGPSOutliers_filtered_sublist cfg pts,
   filterGPSOutliers_filtered_sublist cfg _⟩

/-! ## Chain lemmas for cumulative distances -/

theorem chain_le_getLast : ∀ (l : List ℝ), List.Chain' (· ≤ ·) l →
    ∀ x ∈ l, ∀ (h : l ≠ []), x ≤ l.getLast h := by
  intro l
  induction l with
  | nil => intro _ x hx; exact absurd hx (List.not_mem_nil x)
  | cons a l ih =>
    intro hc x hx h
    match l, hc, hx with
    | [], _, hx =>
      simp only [List.mem_singleton] at hx
      subst hx
      rfl
    | b :: l2, hc, hx =>
      have hab := (List.chain'_cons.mp hc).1
      have hc2 := (List.chain'_cons.mp hc).2
      rw [List.getLast_cons (List.cons_ne_nil b l2)]
      rcases List.mem_cons.mp hx with rfl | hx2
      · exact le_trans hab (ih hc2 b (List.mem_cons_self b l2) _)
      · exact ih hc2 x hx2 _

theorem chain_head_le : ∀ (a : ℝ) (l : List ℝ), List.Chain' (· ≤ ·) (a :: l) →
    ∀ x ∈ a :: l, a ≤ x := by
  intro a l
  induction l generalizing a with
  | nil =>
    intro _ x hx
    simp only [List.mem_singleton] at hx
    subst hx
    rfl
  | cons b l ih =>
    intro hc x hx
    have hab := (List.chain'_cons.mp hc).1
    rcases List.mem_cons.mp hx with rfl | hx2
    · rfl
    · exact le_trans hab (ih b (List.chain'_cons.mp hc).2 x hx2)

theorem addDistGo_chain : ∀ (rest : List TPoint) (prev : TPoint) (c : ℝ),
    List.Chain' (· ≤ ·) (c :: (addDistGo prev c rest).map TPoint.distance) := by
  intro rest
  induction rest with
  | nil => intro prev c; exact List.chain'_singleton c
  | cons q rest ih =>
    intro prev c
    rw [addDistGo]
    simp only [List.map_cons]
    refine List.chain'_cons.mpr ⟨?_, ?_⟩
    · have := haversineDistance_nonneg prev.lat prev.lon q.lat q.lon
      show c ≤ c + haversineDistance prev.lat prev.lon q.lat q.lon
      linarith
    · exact ih q (c + haversineDistance prev.lat prev.lon q.lat q.lon)

theorem getLast?_map {α β : Type} (f : α → β) :
    ∀ (l : List α), (l.map f).getLast? = l.getLast?.map f := by
  intro l
  induction l with
  | nil => rfl
  | cons a l ih =>
    match l with
    | [] => rfl
    | b :: l2 =>
      simp only [List.map_cons, List.getLast?_cons_cons] at ih ⊢
      exact ih

theorem chain'_all {α : Type} {R : α → α → Prop} (hR : ∀ a b, R a b) :
    ∀ l : List α, List.Chain' R l := by
  intro l
  induction l with
  | nil => exact List.chain'_nil
  | cons a l ih =>
    match l, ih with
    | [], _ => exact List.chain'_singleton a
    | b :: l2, ih => exact List.chain'_cons.mpr ⟨hR a b, ih⟩

/-- Claim C6 as amended: for every non-empty lap the enrichment step
gives every point a lap_position in [0, 1], the lap_position sequence is
non-decreasing, the first point has distance 0 and lap_position 0, and
the last point has lap_position 1 whenever the cumulative lap distance
is nonzero (on a zero-distance lap every lap_position is 0 instead). -/
theorem c6_lap_position_invariants (p : TPoint) (rest : List TPoint) :
    (∀ q ∈ addLapPosition (addDistanceToPoints (p :: rest)),
        0 ≤ q.lapPosition ∧ q.lapPosition ≤ 1) ∧
    List.Chain' (· ≤ ·)
      ((addLapPosition (addDistanceToPoints (p :: rest))).map TPoint.lapPosition) ∧
    ((addLapPosition (addDistanceToPoints (p :: rest))).headD dfltT).distance = 0 ∧
    ((addLapPosition (addDistanceToPoints (p :: rest))).headD dfltT).lapPosition = 0 ∧
    (((addDistanceToPoints (p :: rest)).getLast?.getD dfltT).distance ≠ 0 →
      ((addLapPosition (addDistanceToPoints (p :: rest))).getLast?.getD
        dfltT).lapPosition = 1) := by
  set q0 : TPoint := { p with distance := 0 } with hq0
  set T : List TPoint := addDistGo p 0 rest with hT
  have hL : addDistanceToPoints (p :: rest) = q0 :: T := rfl
  have hmap : (q0 :: T).map TPoint.distance = 0 :: T.map TPoint.distance := rfl
  have hchain : List.Chain' (· ≤ ·) ((q0 :: T).map TPoint.distance) := by
    rw [hmap]
    exact addDistGo_chain rest p 0
  have hne : (q0 :: T) ≠ [] := List.cons_ne_nil q0 T
  set lastP : TPoint := (q0 :: T).getLast hne with hlastP
  have hlast? : (q0 :: T).getLast? = some lastP :=
    List.getLast?_eq_getLast_of_ne_nil hne
  have htotal : ((q0 :: T).getLast?.getD dfltT).distance = lastP.distance := by
    rw [hlast?]
    rfl
  set total : ℝ := lastP.distance with htotaldef
  have hmapne : (q0 :: T).map TPoint.distance ≠ [] := by simp
  have hmaplast : ((q0 :: T).map TPoint.distance).getLast hmapne = total := by
    have h1 := List.getLast?_eq_getLast_of_ne_nil hmapne
    have h2 := getLast?_map TPoint.distance (q0 :: T)
    rw [hlast?] at h2
    rw [h2] at h1
    exact (Option.some_injective _ h1.symm)
  have hmem_le : ∀ x ∈ (q0 :: T).map TPoint.distance, x ≤ total := by
    intro x hx
    have := chain_le_getLast _ hchain x hx hmapne
    rwa [hmaplast] at this
  have hmem_nonneg : ∀ x ∈ (q0 :: T).map TPoint.distance, 0 ≤ x := by
    intro x hx
    rw [hmap] at hx hchain
    exact chain_head_le 0 _ hchain x hx
  have htot_nonneg : 0 ≤ total :=
    hmem_nonneg total (by
      rw [← hmaplast]
      exact List.getLast_mem hmapne)
  rw [hL, addLapPosition]
  simp only [htotal]
  by_cases hz : total = 0
  · rw [if_pos hz]
    refine ⟨?_, ?_, ?_, ?_, ?_⟩
    · intro q hq
      rcases List.mem_map.mp hq with ⟨q1, _, rfl⟩
      norm_num
    · rw [List.map_map]
      refine (List.chain'_map _).mpr (chain'_all ?_ _)
      intro a b
      show (0 : ℝ) ≤ 0
      exact le_refl 0
    · rfl
    · rfl
    · intro hcontra
      exact absurd hz hcontra
  · rw [if_neg hz]
    have htotpos : 0 < total := lt_of_le_of_ne htot_nonneg (Ne.symm hz)
    refine ⟨?_, ?_, ?_, ?_, ?_⟩
    · intro q hq
      rcases List.mem_map.mp hq with ⟨q1, hq1, rfl⟩
      have hd0 : 0 ≤ q1.distance :=
        hmem_nonneg _ (List.mem_map_of_mem TPoint.distance hq1)
      have hdle : q1.distance ≤ total :=
        hmem_le _ (List.mem_map_of_mem TPoint.distance hq1)
      constructor
      · exact div_nonneg hd0 htot_nonneg
      · exact (div_le_one htotpos).mpr hdle
    · rw [List.map_map]
      have hchain2 : List.Chain' (fun a b : TPoint => a.distance ≤ b.distance)
          (q0 :: T) := (List.chain'_map TPoint.distance).mp hchain
      refine (List.chain'_map _).mpr (hchain2.imp ?_)
      intro a b hab
      show a.distance / total ≤ b.distance / total
      exact (div_le_div_iff_of_pos_right htotpos).mpr hab
    · rfl
    · show q0.distance / total = 0
      rw [show q0.distance = 0 from rfl, zero_div]
    · intro _
      rw [getLast?_map, hlast?]
      show lastP.distance / total = 1
      exact div_self hz

/-- Claim C6, counterexample: a non-empty lap whose cumulative distance
is zero (here a single stationary point) ends with lap_position 0, not
1, because addLapPosition maps everything to 0 when the total distance
is zero. -/
theorem c6_zero_distance_lap :
    ((addLapPosition (addDistanceToPoints [dfltT])).getLast?.getD
        dfltT).lapPosition = 0 ∧ (0 : ℝ) ≠ 1 := by
  constructor
  · show ((addLapPosition [{ dfltT with distance := 0 }]).getLast?.getD
        dfltT).lapPosition = 0
    rw [addLapPosition]
    rw [if_pos (by rfl)]
    rfl
  · norm_num

/-- Witness for the amended claim C6 on a two-point lap of antipodal
equator points: the total distance is 6371000·π ≠ 0 and the last
lap_position is 1. -/
theorem c6_witness :
    ((addDistanceToPoints [dfltT, c6P2]).getLast?.getD dfltT).distance ≠ 0 ∧
    ((addLapPosition (addDistanceToPoints [dfltT, c6P2])).getLast?.getD
      dfltT).lapPosition = 1 := by
  have hdist : haversineDistance dfltT.lat dfltT.lon c6P2.lat c6P2.lon
      = 6371000 * Real.pi := by
    show haversineDistance 0 0 0 180 = 6371000 * Real.pi
    unfold haversineDistance atan2
    have h1 : ((180 : ℝ) - 0) * Real.pi / 180 = Real.pi := by ring
    rw [h1]
    norm_num [Real.sin_pi_div_two]
    ring
  have hne : ((addDistanceToPoints [dfltT, c6P2]).getLast?.getD
      dfltT).distance ≠ 0 := by
    show (0 + haversineDistance dfltT.lat dfltT.lon c6P2.lat c6P2.lon) ≠ 0
    rw [hdist]
    have := Real.pi_pos
    positivity
  exact ⟨hne, (c6_lap_position_invariants dfltT [c6P2]).2.2.2.2 hne⟩

/-! ## Metric-aggregator lemmas -/

theorem foldl_max_init_le : ∀ (l : List ℝ) (init : ℝ), init ≤ l.foldl max init := by
  intro l
  induction l with
  | nil => intro init; exact le_refl _
  | cons a l ih =>
    intro init
    exact le_trans (le_max_left init a) (ih (max init a))

theorem mem_le_foldl_max : ∀ (l : List ℝ) (init x : ℝ), x ∈ l → x ≤ l.foldl max init := by
  intro l
  induction l with
  | nil => intro init x hx; exact absurd hx (List.not_mem_nil x)
  | cons a l ih =>
    intro init x hx
    rcases List.mem_cons.mp hx with rfl | hx2
    · exact le_trans (le_max_right init x) (foldl_max_init_le l (max init x))
    · exact ih (max init a) x hx2

theorem list_sq_sum_le (l : List ℝ) :
    l.sum ^ 2 ≤ (l.length : ℝ) * (l.map (fun e => e * e)).sum := by
  have h1 : (List.ofFn l.get).sum = l.sum := by rw [List.ofFn_get]
  have h2 : (List.ofFn (fun i => l.get i * l.get i)).sum =
      (l.map (fun e => e * e)).sum := by
    rw [show (fun i => l.get i * l.get i) = (fun e => e * e) ∘ l.get from rfl]
    rw [← List.map_ofFn, List.ofFn_get]
  rw [← h1, ← h2, List.sum_ofFn, List.sum_ofFn]
  have hcs := Finset.sum_mul_sq_le_sq_mul_sq Finset.univ
    (fun i : Fin l.length => l.get i) (fun _ => (1 : ℝ))
  simp only [mul_one, one_pow, Finset.sum_const, Finset.card_univ,
    Fintype.card_fin, nsmul_eq_mul] at hcs
  calc (∑ i, l.get i) ^ 2 ≤ (∑ i, l.get i ^ 2) * (l.length : ℝ) := hcs
    _ = (l.length : ℝ) * ∑ i, l.get i * l.get i := by
        rw [mul_comm]
        congr 1
        exact Finset.sum_congr rfl (fun i _ => by ring)

theorem length_filterMap_eq_length_filter {α β : Type} (f : α → Option β) :
    ∀ l : List α, (l.filterMap f).length =
      (l.filter (fun x => (f x).isSome)).length := by
  intro l
  induction l with
  | nil => rfl
  | cons a l ih =>
    by_cases h : (f a).isSome
    · rcases Option.isSome_iff_exists.mp h with ⟨b, hb⟩
      rw [List.filterMap_cons, hb, List.filter_cons]
      simp only [h, if_pos]
      simp only [List.length_cons, ih]
    · have hnone : f a = none := Option.not_isSome_iff_eq_none.mp h
      rw [List.filterMap_cons, hnone, List.filter_cons]
      simp [h, ih]

theorem matchedErrors_nonneg (G : List TPoint) (E : List Fix) :
    ∀ x ∈ matchedErrors G E, 0 ≤ x := by
  intro x hx
  rcases List.mem_filterMap.mp hx with ⟨g, _, heq⟩
  rcases Option.map_eq_some'.mp heq with ⟨est, _, rfl⟩
  exact haversineDistance_nonneg g.lat g.lon est.lat est.lon

theorem matchedErrors_length (G : List TPoint) (E : List Fix) :
    (matchedErrors G E).length =
      (G.filter (fun g => E.any
        (fun e => decide (round3 e.timestamp = round3 g.timestamp)))).length := by
  rw [matchedErrors, length_filterMap_eq_length_filter]
  congr 1
  apply List.filter_congr
  intro g _
  rw [Option.isSome_map']
  rw [estLookup]
  rw [Bool.eq_iff_iff]
  constructor
  · intro h
    rcases List.find?_isSome.mp h with ⟨e, he, hpe⟩
    exact List.any_eq_true.mpr ⟨e, List.mem_reverse.mp he, hpe⟩
  · intro h
    rcases List.any_eq_true.mp h with ⟨e, he, hpe⟩
    exact List.find?_isSome.mpr ⟨e, List.mem_reverse.mpr he, hpe⟩

/-- Claim C5: for every ground truth G and estimate E the returned
metrics satisfy 0 ≤ mae ≤ rmse ≤ maxError (with the all-Infinity record
on an empty match set ordered trivially), and count is the number of
ground-truth points whose three-decimal-rounded timestamp occurs among
the rounded timestamps of E. -/
theorem c5_metrics_invariants (G : List TPoint) (E : List Fix) :
    (0 : EReal) ≤ (calculateAccuracyMetrics G E).mae ∧
    (calculateAccuracyMetrics G E).mae ≤ (calculateAccuracyMetrics G E).rmse ∧
    (calculateAccuracyMetrics G E).rmse ≤ (calculateAccuracyMetrics G E).maxError ∧
    (calculateAccuracyMetrics G E).count =
      (G.filter (fun g => E.any
        (fun e => decide (round3 e.timestamp = round3 g.timestamp)))).length := by
  match E with
  | [] =>
    refine ⟨le_top, le_refl _, le_refl _, ?_⟩
    show 0 = (G.filter (fun g => ([] : List Fix).any
      (fun e => decide (round3 e.timestamp = round3 g.timestamp)))).length
    simp [List.any_nil]
  | e0 :: Erest =>
    rw [calculateAccuracyMetrics]
    have hcnt := matchedErrors_length G (e0 :: Erest)
    by_cases hzero : (matchedErrors G (e0 :: Erest)).length = 0
    · rw [if_pos hzero]
      exact ⟨le_top, le_refl _, le_refl _, by rw [show infMetrics.count = 0 from rfl, ← hcnt, hzero]⟩
    · rw [if_neg hzero]
      set errs := matchedErrors G (e0 :: Erest) with herrs
      set S : ℝ := errs.sum with hSdef
      set Q : ℝ := (errs.map (fun e => e * e)).sum with hQdef
      set M : ℝ := errs.foldl max 0 with hMdef
      set n : ℝ := (errs.length : ℝ) with hndef
      have hnpos : (0 : ℝ) < n := by
        rw [hndef]
        exact_mod_cast Nat.pos_of_ne_zero hzero
      have hS0 : 0 ≤ S := List.sum_nonneg (matchedErrors_nonneg G (e0 :: Erest))
      have hQ0 : 0 ≤ Q := List.sum_nonneg (by
        intro x hx
        rcases List.mem_map.mp hx with ⟨y, _, rfl⟩
        exact mul_self_nonneg y)
      have hM0 : (0 : ℝ) ≤ M := foldl_max_init_le errs 0
      have hmem_le_M : ∀ x ∈ errs, x ≤ M := fun x hx => mem_le_foldl_max errs 0 x hx
      refine ⟨?_, ?_, ?_, hcnt⟩
      · show (0 : EReal) ≤ ((S / n : ℝ) : EReal)
        exact_mod_cast div_nonneg hS0 hnpos.le
      · show ((S / n : ℝ) : EReal) ≤ ((Real.sqrt (Q / n) : ℝ) : EReal)
        rw [EReal.coe_le_coe_iff]
        rw [Real.le_sqrt (div_nonneg hS0 hnpos.le) (div_nonneg hQ0 hnpos.le)]
        rw [div_pow, div_le_div_iff₀ (by positivity) hnpos]
        have hcs := list_sq_sum_le errs
        nlinarith [hcs, hnpos]
      · show ((Real.sqrt (Q / n) : ℝ) : EReal) ≤ ((M : ℝ) : EReal)
        rw [EReal.coe_le_coe_iff]
        rw [Real.sqrt_le_iff]
        refine ⟨hM0, ?_⟩
        rw [div_le_iff₀ hnpos]
        have hsum : Q ≤ (errs.length : ℝ) * (M * M) := by
          have h1 : ∀ x ∈ errs.map (fun e => e * e), x ≤ M * M := by
            intro x hx
            rcases List.mem_map.mp hx with ⟨y, hy, rfl⟩
            have h0y : 0 ≤ y := matchedErrors_nonneg G (e0 :: Erest) y hy
            have hyM : y ≤ M := hmem_le_M y hy
            nlinarith
          have h2 := List.sum_le_card_nsmul (errs.map (fun e => e * e)) (M * M) h1
          simpa [nsmul_eq_mul] using h2
        calc Q ≤ (errs.length : ℝ) * (M * M) := hsum
          _ = M ^ 2 * n := by rw [hndef]; ring

/-! ## Spline control-point lemmas -/

theorem catmullRom_zero (p0 p1 p2 p3 : ℝ) : catmullRom p0 p1 p2 p3 0 = p1 := by
  unfold catmullRom
  ring

theorem catmullRom_one (p0 p1 p2 p3 : ℝ) : catmullRom p0 p1 p2 p3 1 = p2 := by
  unfold catmullRom
  ring

theorem sorted_getD_lt (ts : List ℝ) (hs : ts.Sorted (· < ·)) {i j : ℕ}
    (hij : i < j) (hj : j < ts.length) : ts.getD i 0 < ts.getD j 0 := by
  have hi : i < ts.length := lt_trans hij hj
  rw [List.getD_eq_getElem ts 0 hi, List.getD_eq_getElem ts 0 hj]
  exact List.pairwise_iff_getElem.mp hs i j hi hj hij

theorem sorted_getD_le (ts : List ℝ) (hs : ts.Sorted (· < ·)) {i j : ℕ}
    (hij : i ≤ j) (hj : j < ts.length) : ts.getD i 0 ≤ ts.getD j 0 := by
  rcases lt_or_eq_of_le hij with h | rfl
  · exact (sorted_getD_lt ts hs h hj).le
  · exact le_refl _

theorem findSegIdx_at_control (ts : List ℝ) (hs : ts.Sorted (· < ·)) (k : ℕ)
    (hk : k < ts.length) :
    ∀ start, start ≤ k → findSegIdx ts (ts.getD k 0) start = k := by
  have main : ∀ (d start : ℕ), start ≤ k → k - start = d →
      findSegIdx ts (ts.getD k 0) start = k := by
    intro d
    induction d with
    | zero =>
      intro start hstart hd
      have heq : start = k := by omega
      subst heq
      have hnot : ¬ (start < ts.length - 1 ∧ ts.getD (start + 1) 0 ≤ ts.getD start 0) := by
        rintro ⟨h1, h2⟩
        have := sorted_getD_lt ts hs (Nat.lt_succ_self start) (by omega)
        linarith
      rw [findSegIdx, dif_neg hnot]
    | succ d ih =>
      intro start hstart hd
      have hlt : start < k := by omega
      have hcond : start < ts.length - 1 ∧ ts.getD (start + 1) 0 ≤ ts.getD k 0 := by
        constructor
        · omega
        · exact sorted_getD_le ts hs (by omega) hk
      rw [findSegIdx, dif_pos hcond]
      exact ih (start + 1) (by omega) (by omega)
  intro start hstart
  exact main (k - start) start hstart rfl

theorem map_timestamp_getD (gps : List GPoint) (k : ℕ) (hk : k < gps.length) :
    (gps.map GPoint.timestamp).getD k 0 = (gps.getD k dfltG).timestamp := by
  rw [List.getD_eq_getElem _ 0 (by simpa using hk), List.getD_eq_getElem _ dfltG hk]
  simp

theorem splineEvalAt_control (gps : List GPoint)
    (hs : (gps.map GPoint.timestamp).Sorted (· < ·)) (k : ℕ)
    (hk : k < gps.length) :
    splineEvalAt gps ((gps.getD k dfltG).timestamp) =
      ⟨(gps.getD k dfltG).timestamp, (gps.getD k dfltG).lat,
        (gps.getD k dfltG).lon⟩ := by
  have hklen : k < (gps.map GPoint.timestamp).length := by simpa using hk
  have hfind : findSegIdx (gps.map GPoint.timestamp)
      ((gps.getD k dfltG).timestamp) 0 = k := by
    rw [← map_timestamp_getD gps k hk]
    exact findSegIdx_at_control _ hs k hklen 0 (Nat.zero_le k)
  rw [splineEvalAt]
  simp only [hfind]
  by_cases hend : gps.length - 1 ≤ k
  · rw [if_pos hend]
    have hkeq : gps.length - 1 = k := by omega
    rw [hkeq]
  · rw [if_neg hend]
    simp only [sub_self, zero_div, catmullRom_zero]

/-- Claim C7: with strictly increasing fix timestamps, the Catmull-Rom
reconstructor output at a full-data timestamp equal to the second
control point's timestamp (segment parameter u = 0) is exactly that
control point's lat/lon, and at the third control point's timestamp it
is exactly that control point's lat/lon; the basis function itself
satisfies catmullRom(…, 0) = p1 and catmullRom(…, 1) = p2. -/
theorem c7_spline_hits_inner_control_points (full : List TPoint)
    (gps : List GPoint) (k : ℕ)
    (hs : (gps.map GPoint.timestamp).Sorted (· < ·))
    (hk1 : 1 ≤ k) (hk2 : k + 2 < gps.length) :
    (∀ i, i < full.length → (gps.headD dfltG).originalIndex ≤ i →
      (full.getD i dfltT).timestamp = (gps.getD k dfltG).timestamp →
      (applySplineInterpolation full gps)[i - (gps.headD dfltG).originalIndex]? =
        some ⟨(gps.getD k dfltG).timestamp, (gps.getD k dfltG).lat,
          (gps.getD k dfltG).lon⟩) ∧
    (∀ i, i < full.length → (gps.headD dfltG).originalIndex ≤ i →
      (full.getD i dfltT).timestamp = (gps.getD (k + 1) dfltG).timestamp →
      (applySplineInterpolation full gps)[i - (gps.headD dfltG).originalIndex]? =
        some ⟨(gps.getD (k + 1) dfltG).timestamp, (gps.getD (k + 1) dfltG).lat,
          (gps.getD (k + 1) dfltG).lon⟩) ∧
    (∀ p0 p1 p2 p3 : ℝ, catmullRom p0 p1 p2 p3 0 = p1 ∧
      catmullRom p0 p1 p2 p3 1 = p2) := by
  have hlen2 : ¬ gps.length < 2 := by omega
  have hmain : ∀ m, m < gps.length → ∀ i, i < full.length →
      (gps.headD dfltG).originalIndex ≤ i →
      (full.getD i dfltT).timestamp = (gps.getD m dfltG).timestamp →
      (applySplineInterpolation full gps)[i - (gps.headD dfltG).originalIndex]? =
        some ⟨(gps.getD m dfltG).timestamp, (gps.getD m dfltG).lat,
          (gps.getD m dfltG).lon⟩ := by
    intro m hm i hi hstart hts
    rw [applySplineInterpolation, if_neg hlen2]
    rw [List.getElem?_map]
    rw [List.getElem?_range']
    · rw [show (gps.headD dfltG).originalIndex +
        1 * (i - (gps.headD dfltG).originalIndex) = i by omega]
      simp only [Option.map_some']
      rw [hts, splineEvalAt_control gps hs m hm]
    · omega
  exact ⟨hmain k (by omega), hmain (k + 1) (by omega),
    fun p0 p1 p2 p3 => ⟨catmullRom_zero p0 p1 p2 p3, catmullRom_one p0 p1 p2 p3⟩⟩

/-- Witness for claim C7 on four concrete fixes: the spline output at
the second and third control timestamps reproduces those fixes. -/
theorem c7_witness :
    (applySplineInterpolation c7Full c7Gps)[0]? = some ⟨1, 11, 21⟩ ∧
    (applySplineInterpolation c7Full c7Gps)[1]? = some ⟨2, 12, 22⟩ := by
  have hs : (c7Gps.map GPoint.timestamp).Sorted (· < ·) := by
    rw [show c7Gps.map GPoint.timestamp = [0, 1, 2, 3] from rfl]
    simp [List.sorted_cons]
    norm_num
  obtain ⟨h1, h2, _⟩ := c7_spline_hits_inner_control_points c7Full c7Gps 1 hs
    (le_refl 1) (by norm_num [show c7Gps.length = 4 from rfl])
  constructor
  · exact h1 0 (by norm_num [show c7Full.length = 2 from rfl]) (Nat.zero_le _) rfl
  · exact h2 1 (by norm_num [show c7Full.length = 2 from rfl]) (Nat.zero_le _) rfl

/-- Claim C10: when no fix of a non-empty sequence has reported speed
above ekf.min_speed_for_heading, the initialization scan falls back to
index 0, runSensorFusion initialises the EKF from the first fix (its
lat/lon as reference, its bearing and speed for the initial heading and
velocity) and runs the main loop from that fix, rather than skipping the
lap or erroring. -/
theorem c10_init_fallback (cfg : Config) (full : List TPoint)
    (g0 : GPoint) (rest : List GPoint)
    (hslow : ∀ p ∈ g0 :: rest, ¬ optSpeedGt p.speed cfg.ekf.min_speed_for_heading) :
    findInitIdx cfg (g0 :: rest) = 0 ∧
    runSensorFusion cfg full (g0 :: rest) =
      ekfLoop cfg full (g0 :: rest) g0.originalIndex 0
        ((rest.get? 0).map GPoint.timestamp) (initFromGps g0) ∧
    (initFromGps g0).initialized = true ∧
    (initFromGps g0).lat0 = g0.lat ∧
    (initFromGps g0).lon0 = g0.lon ∧
    (initFromGps g0).x.psi = g0.bearing.getD 0 * Real.pi / 180 ∧
    (initFromGps g0).x.vx = g0.speed.getD 0 * Real.sin (g0.bearing.getD 0 * Real.pi / 180) ∧
    (initFromGps g0).x.vy = g0.speed.getD 0 * Real.cos (g0.bearing.getD 0 * Real.pi / 180) := by
  have hnone : (g0 :: rest).findIdx? (fun p =>
      decide (optSpeedGt p.speed cfg.ekf.min_speed_for_heading)) = none := by
    rw [List.findIdx?_eq_none_iff]
    intro x hx
    simpa using hslow x hx
  have hidx : findInitIdx cfg (g0 :: rest) = 0 := by
    rw [findInitIdx, hnone]
    rfl
  refine ⟨hidx, ?_, rfl, rfl, rfl, rfl, rfl, rfl⟩
  simp only [runSensorFusion, hidx]
  rfl

/-- Witness for claim C10: with the single slow fix c10Fix and an empty
IMU stream the fallback initialization fires. -/
theorem c10_witness :
    findInitIdx defaultConfig [c10Fix] = 0 ∧
    runSensorFusion defaultConfig [] [c10Fix] =
      ekfLoop defaultConfig [] [c10Fix] c10Fix.originalIndex 0
        ((([] : List GPoint).get? 0).map GPoint.timestamp) (initFromGps c10Fix) ∧
    (initFromGps c10Fix).initialized = true ∧
    (initFromGps c10Fix).lat0 = c10Fix.lat ∧
    (initFromGps c10Fix).lon0 = c10Fix.lon ∧
    (initFromGps c10Fix).x.psi = c10Fix.bearing.getD 0 * Real.pi / 180 ∧
    (initFromGps c10Fix).x.vx =
      c10Fix.speed.getD 0 * Real.sin (c10Fix.bearing.getD 0 * Real.pi / 180) ∧
    (initFromGps c10Fix).x.vy =
      c10Fix.speed.getD 0 * Real.cos (c10Fix.bearing.getD 0 * Real.pi / 180) :=
  c10_init_fallback defaultConfig [] c10Fix []
    (by
      intro p hp
      simp only [List.mem_singleton] at hp
      subst hp
      norm_num [optSpeedGt, c10Fix, defaultConfig])

/-! ## C3: predict at dt = 0 and the fixed-dt driver -/

theorem transpose_eye (n : ℕ) : transpose (eye n) = eye n := by
  funext i j
  by_cases h : i = j
  · subst h; rfl
  · have h2 : ¬j = i := fun hj => h hj.symm
    simp [transpose, eye, h, h2]

theorem matmul_eye {m n : ℕ} (A : Mat m n) : matmul A (eye n) = A := by
  funext i j
  simp [matmul, eye, mul_ite, mul_one, mul_zero]

theorem eye_matmul {m n : ℕ} (A : Mat m n) : matmul (eye m) A = A := by
  funext i j
  simp [matmul, eye, ite_mul, one_mul, zero_mul]

/-- Claim C3 as amended: the predict step at dt = 0 is a no-op up to
re-normalisation of the heading — the position, velocity and bias
components and the covariance are unchanged (F degenerates to the
identity and Q to zero), and ψ becomes normalizeAngle ψ.  On an
uninitialised filter predict returns the state unchanged.  The driver
runSensorFusion, however, never passes dt = 0: it uses the fixed
dt = 1/imuHz for every sample regardless of timestamps, so the output
at a duplicate timestamp does not equal the output at the preceding
sample (see the counterexample). -/
theorem c3_predict_dt0 (cfg : Config) (st : EkfState) (imu : TPoint) :
    predict cfg st imu 0 =
      if st.initialized = false then st
      else { st with x := ⟨st.x.px, st.x.py, st.x.vx, st.x.vy,
        normalizeAngle st.x.psi, st.x.b_ax, st.x.b_ay⟩ } := by
  by_cases h : st.initialized = false
  · rw [if_pos h, predict, if_pos h]
  · rw [if_neg h, predict, if_neg h]
    simp only [EkfState.mk.injEq, X7.mk.injEq, and_true, true_and]
    refine ⟨⟨by ring, by ring, by ring, by ring, by norm_num⟩, ?_⟩
    have key : ∀ F Q : Mat 7 7, F = eye 7 → (∀ i j, Q i j = 0) →
        matadd (matmul F (matmul st.P (transpose F))) Q = st.P := by
      intro F Q hF hQ
      subst hF
      rw [transpose_eye, matmul_eye, eye_matmul]
      funext i j
      simp [matadd, hQ]
    apply key
    · funext i j
      fin_cases i <;> fin_cases j <;> norm_num [eye, Fin.ext_iff]
    · intro i j
      fin_cases i <;> fin_cases j <;> norm_num

theorem predict_proj (cfg : Config) (st : EkfState) (imu : TPoint) (d : ℝ)
    (h : st.initialized = true) :
    (predict cfg st imu d).x = ⟨
      st.x.px + st.x.vx * d + 0.5 *
        ((-imu.lateral_acc * cfg.G - st.x.b_ax) * Real.cos st.x.psi +
          (imu.longitudinal_acc * cfg.G - st.x.b_ay) * Real.sin st.x.psi) * d * d,
      st.x.py + st.x.vy * d + 0.5 *
        (-(-imu.lateral_acc * cfg.G - st.x.b_ax) * Real.sin st.x.psi +
          (imu.longitudinal_acc * cfg.G - st.x.b_ay) * Real.cos st.x.psi) * d * d,
      st.x.vx + ((-imu.lateral_acc * cfg.G - st.x.b_ax) * Real.cos st.x.psi +
          (imu.longitudinal_acc * cfg.G - st.x.b_ay) * Real.sin st.x.psi) * d,
      st.x.vy + (-(-imu.lateral_acc * cfg.G - st.x.b_ax) * Real.sin st.x.psi +
          (imu.longitudinal_acc * cfg.G - st.x.b_ay) * Real.cos st.x.psi) * d,
      normalizeAngle (st.x.psi + -imu.yaw_rate * Real.pi / 180 * d),
      st.x.b_ax, st.x.b_ay⟩ ∧
    (predict cfg st imu d).lat0 = st.lat0 ∧
    (predict cfg st imu d).lon0 = st.lon0 ∧
    (predict cfg st imu d).initialized = true := by
  rw [predict, if_neg (by simp [h])]
  exact ⟨rfl, rfl, rfl, h⟩

theorem c3_st0_x : (initFromGps c3G0).x = ⟨0, 0, 0, 3, 0, 0, 0⟩ := by
  rw [initFromGps]
  simp only [show c3G0.bearing = some 0 from rfl, show c3G0.speed = some 3 from rfl,
    Option.getD_some]
  norm_num [X7.mk.injEq]

theorem c3_dt : (1 : ℝ) / (defaultConfig.sampling.imuHz : ℝ) = 1 / 25 := by
  norm_num [defaultConfig]

theorem c3_st1_proj :
    (predict defaultConfig (initFromGps c3G0) c3Imu (1/25)).x = ⟨0, 3/25, 0, 3, 0, 0, 0⟩ ∧
    (predict defaultConfig (initFromGps c3G0) c3Imu (1/25)).lat0 = 0 ∧
    (predict defaultConfig (initFromGps c3G0) c3Imu (1/25)).lon0 = 0 ∧
    (predict defaultConfig (initFromGps c3G0) c3Imu (1/25)).initialized = true := by
  obtain ⟨hx, hlat, hlon, hi⟩ := predict_proj defaultConfig (initFromGps c3G0) c3Imu (1/25) rfl
  refine ⟨?_, by rw [hlat]; rfl, by rw [hlon]; rfl, hi⟩
  rw [hx, c3_st0_x]
  norm_num [show c3Imu.lateral_acc = 0 from rfl, show c3Imu.longitudinal_acc = 0 from rfl,
    show c3Imu.yaw_rate = 0 from rfl, normalizeAngle_zero, X7.mk.injEq]

theorem c3_st2_proj :
    (predict defaultConfig (predict defaultConfig (initFromGps c3G0) c3Imu (1/25))
        c3Imu (1/25)).x = ⟨0, 6/25, 0, 3, 0, 0, 0⟩ ∧
    (predict defaultConfig (predict defaultConfig (initFromGps c3G0) c3Imu (1/25))
        c3Imu (1/25)).lat0 = 0 ∧
    (predict defaultConfig (predict defaultConfig (initFromGps c3G0) c3Imu (1/25))
        c3Imu (1/25)).lon0 = 0 ∧
    (predict defaultConfig (predict defaultConfig (initFromGps c3G0) c3Imu (1/25))
        c3Imu (1/25)).initialized = true := by
  obtain ⟨h1x, h1lat, h1lon, h1i⟩ := c3_st1_proj
  obtain ⟨hx, hlat, hlon, hi⟩ := predict_proj defaultConfig
    (predict defaultConfig (initFromGps c3G0) c3Imu (1/25)) c3Imu (1/25) h1i
  refine ⟨?_, by rw [hlat, h1lat], by rw [hlon, h1lon], hi⟩
  rw [hx, h1x]
  norm_num [show c3Imu.lateral_acc = 0 from rfl, show c3Imu.longitudinal_acc = 0 from rfl,
    show c3Imu.yaw_rate = 0 from rfl, normalizeAngle_zero, X7.mk.injEq]

theorem getPosition_of_init (cfg : Config) (st : EkfState) (h : st.initialized = true) :
    getPosition cfg st = some (localToGps cfg st.x.px st.x.py st.lat0 st.lon0) := by
  rw [getPosition, if_neg (by simp [h])]

theorem c3_pos1 : localToGps defaultConfig 0 (3/25) 0 0 = (3/2783000, 0) := by
  rw [localToGps]
  norm_num [Prod.mk.injEq, defaultConfig]

theorem c3_pos2 : localToGps defaultConfig 0 (6/25) 0 0 = (6/2783000, 0) := by
  rw [localToGps]
  norm_num [Prod.mk.injEq, defaultConfig]

theorem c3_loop2 (s : EkfState) : ekfLoop defaultConfig c3Full [c3G0] 2 0 none s = [] := by
  rw [ekfLoop, dif_neg (by norm_num [show c3Full.length = 2 from rfl])]

theorem c3_loop1 : ekfLoop defaultConfig c3Full [c3G0] 1 0 none
    (predict defaultConfig (initFromGps c3G0) c3Imu (1/25)) = [⟨1, 6/2783000, 0⟩] := by
  obtain ⟨h2x, h2lat, h2lon, h2i⟩ := c3_st2_proj
  rw [ekfLoop, dif_pos (by norm_num [show c3Full.length = 2 from rfl])]
  simp only [show c3Full.getD 1 dfltT = c3Imu from rfl, c3_dt]
  rw [if_neg (by simp [dueAt])]
  simp only [show (1 : ℕ) + 1 = 2 from rfl, c3_loop2,
    getPosition_of_init _ _ h2i, h2x, h2lat, h2lon, c3_pos2,
    show c3Imu.timestamp = 1 from rfl]

theorem c3_loop0 : ekfLoop defaultConfig c3Full [c3G0] 0 0 none (initFromGps c3G0) =
    [⟨1, 3/2783000, 0⟩, ⟨1, 6/2783000, 0⟩] := by
  obtain ⟨h1x, h1lat, h1lon, h1i⟩ := c3_st1_proj
  rw [ekfLoop, dif_pos (by norm_num [show c3Full.length = 2 from rfl])]
  simp only [show c3Full.getD 0 dfltT = c3Imu from rfl, c3_dt]
  rw [if_neg (by simp [dueAt])]
  simp only [show (0 : ℕ) + 1 = 1 from rfl, c3_loop1,
    getPosition_of_init _ _ h1i, h1x, h1lat, h1lon, c3_pos1,
    show c3Imu.timestamp = 1 from rfl]

theorem c3_find : findInitIdx defaultConfig [c3G0] = 0 := by
  rw [findInitIdx]
  have hp : (decide (optSpeedGt c3G0.speed defaultConfig.ekf.min_speed_for_heading)) = true := by
    simp only [decide_eq_true_eq]
    norm_num [optSpeedGt, show c3G0.speed = some 3 from rfl, defaultConfig]
  simp [List.findIdx?_cons, hp]

theorem c3_run : runSensorFusion defaultConfig c3Full [c3G0] =
    [⟨1, 3/2783000, 0⟩, ⟨1, 6/2783000, 0⟩] := by
  simp only [runSensorFusion, c3_find]
  simp only [show ([c3G0].getD 0 dfltG) = c3G0 from rfl,
    show ([c3G0].get? 1).map GPoint.timestamp = none from rfl,
    show c3G0.originalIndex = 0 from rfl]
  exact c3_loop0

/-- Counterexample to claim C3: on a stream whose two samples carry the
same timestamp, the driver still advances the filter by the fixed
dt = 1/imuHz at the duplicate, so the output emitted there differs from
the output at the immediately preceding sample. -/
theorem c3_duplicate_not_noop :
    (c3Full.getD 0 dfltT).timestamp = (c3Full.getD 1 dfltT).timestamp ∧
    runSensorFusion defaultConfig c3Full [c3G0] =
      [⟨1, 3/2783000, 0⟩, ⟨1, 6/2783000, 0⟩] ∧
    ((3 : ℝ)/2783000 ≠ 6/2783000) :=
  ⟨rfl, c3_run, by norm_num⟩

/-! ## C8: the parameter sweep restores CONFIG and picks the min-RMSE row -/

theorem runEkfExperiment_snd (cfg : Config) (full : List TPoint)
    (gps : List GPoint) (patch : EkfPatch) :
    (runEkfExperiment cfg full gps patch).2 = cfg := rfl

theorem runEkfExperiments_snd (cfg : Config) (full : List TPoint) (gps : List GPoint) :
    (runEkfExperiments cfg full gps).2 = cfg := by
  have key : ∀ (l : List ExperimentSpec) (acc : List ExperimentResult × Config),
      (l.foldl (fun acc exp =>
        let r := runEkfExperiment acc.2 full gps
          ⟨exp.sigma_accel, exp.sigma_gyro, exp.sigma_bias, exp.gps_pos_noise⟩
        (acc.1 ++ [⟨exp.label, exp.sigma_accel, exp.sigma_gyro, exp.sigma_bias,
                    exp.gps_pos_noise, r.1.mse, r.1.rmse, r.1.mae, r.1.maxError,
                    r.1.count⟩], r.2)) acc).2 = acc.2 := by
    intro l
    induction l with
    | nil => intro acc; rfl
    | cons a t ih =>
        intro acc
        rw [List.foldl_cons, ih]
        rfl
  exact key experimentsList ([], cfg)

theorem runAllAlgorithms_snd (cfg : Config) (full : List TPoint) (gps : List GPoint) :
    (runAllAlgorithms cfg full gps).2 = cfg := by
  simp only [runAllAlgorithms]
  rw [runEkfExperiments_snd]

theorem insertByRmse_perm (a : ExperimentResult) (l : List ExperimentResult) :
    List.Perm (insertByRmse a l) (a :: l) := by
  induction l with
  | nil => exact List.Perm.refl _
  | cons b rest ih =>
      rw [insertByRmse]
      by_cases h : a.rmse < b.rmse
      · rw [if_pos h]
      · rw [if_neg h]
        exact (ih.cons b).trans (List.Perm.swap a b rest)

theorem sortByRmse_perm (l : List ExperimentResult) : List.Perm (sortByRmse l) l := by
  induction l with
  | nil => exact List.Perm.refl _
  | cons a rest ih => exact (insertByRmse_perm a (sortByRmse rest)).trans (ih.cons a)

theorem insertByRmse_pairwise (a : ExperimentResult) (l : List ExperimentResult)
    (h : List.Pairwise (fun x y => x.rmse ≤ y.rmse) l) :
    List.Pairwise (fun x y => x.rmse ≤ y.rmse) (insertByRmse a l) := by
  induction l with
  | nil => simp [insertByRmse]
  | cons b rest ih =>
      rw [insertByRmse]
      rcases List.pairwise_cons.mp h with ⟨hb, hrest⟩
      by_cases hab : a.rmse < b.rmse
      · rw [if_pos hab]
        refine List.Pairwise.cons ?_ h
        intro x hx
        rcases List.mem_cons.mp hx with hxb | hx2
        · rw [hxb]
          exact le_of_lt hab
        · exact le_of_lt (lt_of_lt_of_le hab (hb x hx2))
      · rw [if_neg hab]
        refine List.Pairwise.cons ?_ (ih hrest)
        intro x hx
        have hx2 := (insertByRmse_perm a rest).mem_iff.mp hx
        rcases List.mem_cons.mp hx2 with hxa | hx3
        · rw [hxa]
          exact le_of_not_lt hab
        · exact hb x hx3

theorem sortByRmse_pairwise (l : List ExperimentResult) :
    List.Pairwise (fun x y => x.rmse ≤ y.rmse) (sortByRmse l) := by
  induction l with
  | nil => exact List.Pairwise.nil
  | cons a rest ih => exact insertByRmse_pairwise a _ ih

theorem sorted_headD_min (l : List ExperimentResult)
    (h : List.Pairwise (fun x y => x.rmse ≤ y.rmse) l) (n : Fin l.length) :
    (l.headD dfltER).rmse ≤ (l.get n).rmse := by
  match l, n with
  | a :: rest, ⟨0, _⟩ => exact le_refl _
  | a :: rest, ⟨k+1, hk⟩ =>
      have hb := (List.pairwise_cons.mp h).1
      have hg : (a :: rest).get ⟨k+1, hk⟩ = rest.get ⟨k, by simp only [List.length_cons] at hk; omega⟩ := rfl
      rw [hg]
      exact hb _ (rest.get_mem _ _)

/-- Claim C8: the sweep is configuration-neutral — runEkfExperiment,
runEkfExperiments and runAllAlgorithms all hand back CONFIG exactly as
received (in particular every CONFIG.ekf field) — and the "EKF best"
selection really is the minimum-RMSE swept row: metrics.ekfBestConfig is
the head of the RMSE-sorted experiment list, the ekfBest trajectory is
an EKF run under exactly that row's four parameters on the restored
configuration, the sort permutes its input, and the head's rmse is a
lower bound for every entry of the sorted list. -/
theorem c8_sweep_frame_and_best (cfg : Config) (full : List TPoint)
    (gps : List GPoint) (patch : EkfPatch) :
    (runEkfExperiment cfg full gps patch).2 = cfg ∧
    (runEkfExperiments cfg full gps).2 = cfg ∧
    (runAllAlgorithms cfg full gps).2 = cfg ∧
    (runAllAlgorithms cfg full gps).1.metrics.ekfBestConfig =
      (runEkfExperiments cfg full gps).1.headD dfltER ∧
    (runAllAlgorithms cfg full gps).1.ekfBest =
      runSensorFusion { cfg with ekf := { cfg.ekf with
        sigma_accel := ((runEkfExperiments cfg full gps).1.headD dfltER).sigma_accel,
        sigma_gyro := ((runEkfExperiments cfg full gps).1.headD dfltER).sigma_gyro,
        sigma_bias := ((runEkfExperiments cfg full gps).1.headD dfltER).sigma_bias,
        gps_pos_noise :=
          ((runEkfExperiments cfg full gps).1.headD dfltER).gps_pos_noise } }
        full gps ∧
    (∀ l : List ExperimentResult, List.Perm (sortByRmse l) l) ∧
    (∀ n : Fin (runEkfExperiments cfg full gps).1.length,
      ((runEkfExperiments cfg full gps).1.headD dfltER).rmse ≤
        ((runEkfExperiments cfg full gps).1.get n).rmse) := by
  refine ⟨rfl, runEkfExperiments_snd cfg full gps, runAllAlgorithms_snd cfg full gps,
    rfl, ?_, sortByRmse_perm, ?_⟩
  · simp only [runAllAlgorithms]
    rw [runEkfExperiments_snd]
  · intro n
    exact sorted_headD_min _ (sortByRmse_pairwise _) n

/-! ## C9: determinism of the per-lap pipeline in the random stream -/

theorem addGPSNoiseGo_congr (cfg : Config) (avg : ℝ) :
    ∀ (pts : List GPoint) (n : ℕ) (f g : ℕ → ℝ),
      (∀ k, f (n + k) = g (n + k)) →
      (addGPSNoiseGo cfg avg pts ⟨f, n⟩).1 = (addGPSNoiseGo cfg avg pts ⟨g, n⟩).1 ∧
      (addGPSNoiseGo cfg avg pts ⟨f, n⟩).2.pos =
        (addGPSNoiseGo cfg avg pts ⟨g, n⟩).2.pos := by
  intro pts
  induction pts with
  | nil => intro n f g h; exact ⟨rfl, rfl⟩
  | cons p rest ih =>
      intro n f g h
      have h0 : f n = g n := by simpa using h 0
      have h1 : f (n + 1) = g (n + 1) := h 1
      have h2 : f (n + 2) = g (n + 2) := h 2
      have h3 : f (n + 3) = g (n + 3) := h 3
      have hrec := ih (n + 2 + 2) f g (fun k => by
        have hk := h (2 + 2 + k)
        rw [show n + (2 + 2 + k) = n + 2 + 2 + k by omega] at hk
        exact hk)
      have h3x : f (n + 2 + 1) = g (n + 2 + 1) := by
        rw [show n + 2 + 1 = n + 3 by omega]
        exact h3
      simp only [addGPSNoiseGo, gaussianRandom]
      refine ⟨?_, by simpa using hrec.2⟩
      rw [h0, h1, h2, h3x, hrec.1]

theorem addGPSNoise_congr (cfg : Config) (pts : List GPoint) (n : ℕ) (f g : ℕ → ℝ)
    (h : ∀ k, f (n + k) = g (n + k)) :
    (addGPSNoise cfg pts ⟨f, n⟩).1 = (addGPSNoise cfg pts ⟨g, n⟩).1 ∧
    (addGPSNoise cfg pts ⟨f, n⟩).2.pos = (addGPSNoise cfg pts ⟨g, n⟩).2.pos := by
  rw [addGPSNoise, addGPSNoise]
  by_cases he : cfg.noise.enabled = false
  · rw [if_pos he, if_pos he]
    exact ⟨rfl, rfl⟩
  · rw [if_neg he, if_neg he]
    exact addGPSNoiseGo_congr cfg _ pts n f g h

/-- Claim C9: the per-lap pipeline is deterministic in the random
stream — two runs of processLap on the same samples, configuration and
lap, whose Math.random streams agree from the current read position on
(in particular two runs from the same seed), return bit-identical lap
records and leave the stream at the same position. -/
theorem c9_processLap_deterministic (cfg : Config) (raw : List TPoint) (lap : ℤ)
    (n : ℕ) (f g : ℕ → ℝ) (h : ∀ k, f (n + k) = g (n + k)) :
    (processLap cfg raw lap ⟨f, n⟩).1 = (processLap cfg raw lap ⟨g, n⟩).1 ∧
    (processLap cfg raw lap ⟨f, n⟩).2.pos = (processLap cfg raw lap ⟨g, n⟩).2.pos := by
  simp only [processLap]
  rcases hfilt : raw.filter (fun p => decide (p.lap = lap)) with _ | ⟨q, qrest⟩
  · simp [hfilt]
  · simp only [hfilt]
    obtain ⟨hl, hp⟩ := addGPSNoise_congr cfg
      (downsampleGPS cfg (enhanceTelemetryPoints ((q :: qrest).map
        (fun p => { p with timestamp := p.timestamp - q.timestamp }))).1) n f g h
    constructor
    · rw [hl]
    · exact hp

/-- Witness for claim C9: two streams that differ below the read
position but agree from it on drive processLap identically. -/
theorem c9_witness :
    (processLap defaultConfig [] 1 ⟨fun _ => 1/2, 5⟩).1 =
      (processLap defaultConfig [] 1 ⟨fun k => if k < 5 then 0 else 1/2, 5⟩).1 ∧
    (processLap defaultConfig [] 1 ⟨fun _ => 1/2, 5⟩).2.pos =
      (processLap defaultConfig [] 1 ⟨fun k => if k < 5 then 0 else 1/2, 5⟩).2.pos :=
  c9_processLap_deterministic defaultConfig [] 1 5 _ _
    (fun k => by rw [if_neg (by omega)])

end

end Telemetry
